import Mathlib

set_option maxRecDepth 10000

/-!
Verification development for the Slack sales bot (`app.py`,
`data_filter_modal.py`): a shallow embedding of the interactive
result-state machine — DataFrame rendering, filtering, caching and the
Slack event handlers — as executable Lean definitions, with theorems
about the properties the specification claims.

Python strings are modelled by `String`, DataFrames by `Frame` (ordered
columns with explicit dtypes, row-major cells), the process-wide caches
by association lists, and Slack side effects by a `SlackAction` list
returned from each handler.
-/

namespace CortexSlack

/-! ### Python string / number formatting primitives -/

/-- Decimal digits of `n`, least significant first (source of Python
`str(int)`); fuel-structural, the fuel always suffices. -/
def digitsRevAux : Nat → Nat → List Char
  | 0, m => [Char.ofNat (48 + m % 10)]
  | fuel + 1, m =>
    if m < 10 then [Char.ofNat (48 + m)]
    else Char.ofNat (48 + m % 10) :: digitsRevAux fuel (m / 10)

def digitsRev (n : Nat) : List Char := digitsRevAux n n

/-- Insert a comma before every third digit (input and output least
significant first); models the `,` option of Python format specs. -/
def commaRev : List Char → Nat → List Char
  | [], _ => []
  | c :: t, i =>
    if i ≠ 0 ∧ i % 3 = 0 then ',' :: c :: commaRev t (i + 1)
    else c :: commaRev t (i + 1)

/-- Decimal rendering of a natural number with thousands separators,
as Python `f"{n:,}"`. -/
def commaNat (n : Nat) : String :=
  String.mk (commaRev (digitsRev n) 0).reverse

/-- Decimal rendering of an integer with thousands separators. -/
def commaInt (i : Int) : String :=
  (if i < 0 then "-" else "") ++ commaNat i.natAbs

/-- Plain decimal rendering of a natural number (Python `str(n)`). -/
def plainNat (n : Nat) : String := String.mk (digitsRev n).reverse

/-- Plain decimal rendering of an integer (Python `str(int(x))`). -/
def plainInt (i : Int) : String :=
  (if i < 0 then "-" else "") ++ plainNat i.natAbs

/-- Round to the nearest integer, ties to even: the rounding used by
Python `format` for `.0f`. -/
def pyRound0 (q : Rat) : Int :=
  let f := q.floor
  let frac := q - (f : Rat)
  if frac < 1/2 then f
  else if frac > 1/2 then f + 1
  else if f % 2 = 0 then f else f + 1

/-- Python `int(x)`: truncation toward zero. -/
def pyTrunc (q : Rat) : Int := if q ≥ 0 then q.floor else q.ceil

/-- Python `f"{x:,.0f}"`: round half-to-even, thousands separators. -/
def fmtComma0 (q : Rat) : String := commaInt (pyRound0 q)

/-- Python `f"${x:,.0f}"`: the currency rendering. -/
def fmtCurrency (q : Rat) : String := "$" ++ fmtComma0 q

/-- Two-character zero padding of a natural number below 100. -/
def pad2 (n : Nat) : String :=
  if n < 10 then "0" ++ plainNat n else plainNat n

/-- Python `f"{x:.2f}"`: fixed two decimals, rounding half-to-even. -/
def fmt2f (q : Rat) : String :=
  let n := pyRound0 (q * 100)
  (if n < 0 then "-" else "") ++ plainNat (n.natAbs / 100) ++ "." ++ pad2 (n.natAbs % 100)

/-- Python `s.replace(pat, rep)`: non-overlapping left-to-right
replacement of every occurrence (fuel-structural; the fuel is the
input length, which always suffices). -/
def pyReplaceAux (pat rep : List Char) : Nat → List Char → List Char
  | _, [] => []
  | 0, l => l
  | fuel + 1, c :: t =>
    if pat ≠ [] ∧ pat.isPrefixOf (c :: t) then
      rep ++ pyReplaceAux pat rep fuel (t.drop (pat.length - 1))
    else c :: pyReplaceAux pat rep fuel t

def pyReplace (s pat rep : String) : String :=
  String.mk (pyReplaceAux pat.data rep.data s.data.length s.data)

/-- Python `s.strip()`. -/
def pyStrip (s : String) : String :=
  String.mk (((s.data.dropWhile Char.isWhitespace).reverse.dropWhile
    Char.isWhitespace).reverse)

/-- Python `s.upper()` (ASCII, as the SQL and column names here). -/
def strUpper (s : String) : String := String.mk (s.data.map Char.toUpper)

/-- Python `s.startswith(p)`. -/
def pyStartsWith (s p : String) : Bool := p.data.isPrefixOf s.data

/-- Python `s.endswith(p)`. -/
def pyEndsWith (s p : String) : Bool := p.data.isSuffixOf s.data

/-- Python `s.split(c)` for a one-character separator. -/
def splitCharAux (c : Char) : List Char → List Char → List String
  | [], acc => [String.mk acc.reverse]
  | x :: t, acc =>
    if x = c then String.mk acc.reverse :: splitCharAux c t []
    else splitCharAux c t (x :: acc)

def splitChar (c : Char) (s : String) : List String := splitCharAux c s.data []

/-- Python `needle in hay` on strings: substring containment. -/
def strContainsAux (needle : List Char) : List Char → Bool
  | [] => needle.isPrefixOf []
  | c :: t => needle.isPrefixOf (c :: t) || strContainsAux needle t

def strContains (hay needle : String) : Bool :=
  strContainsAux needle.data hay.data

/-- Python `hay.find(needle)` as an `Option` char index. -/
def findSubAux (needle : List Char) : List Char → Nat → Option Nat
  | [], i => if needle.isPrefixOf [] then some i else none
  | c :: t, i => if needle.isPrefixOf (c :: t) then some i else findSubAux needle t (i + 1)

def findSub (hay needle : String) : Option Nat :=
  findSubAux needle.data hay.data 0

/-- Python `s[:k]` (character slicing). -/
def pyTake (s : String) (k : Nat) : String := String.mk (s.data.take k)

/-- Python `s[k:]` (character slicing). -/
def pyDrop (s : String) (k : Nat) : String := String.mk (s.data.drop k)

/-- Python `s.rstrip(c)`: drop every trailing occurrence of `c`. -/
def rstripChar (s : String) (c : Char) : String :=
  String.mk (s.data.reverse.dropWhile (· = c)).reverse

/-- Python `sep.join(parts)`. -/
def joinWith (sep : String) : List String → String
  | [] => ""
  | [x] => x
  | x :: y :: t => x ++ sep ++ joinWith sep (y :: t)

/-- Python `s.replace('_', ' ')` specialised to characters. -/
def replaceChar (s : String) (a b : Char) : String :=
  String.mk (s.data.map fun c => if c = a then b else c)

/-- Python `str.title()`: uppercase each letter that does not follow a
letter, lowercase the others. -/
def titleAux : List Char → Bool → List Char
  | [], _ => []
  | c :: t, prevAlpha =>
    if c.isAlpha then
      (if prevAlpha then c.toLower else c.toUpper) :: titleAux t true
    else c :: titleAux t false

def pyTitle (s : String) : String := String.mk (titleAux s.data false)

/-- Python `float(s)` restricted to plain decimal literals
(optional sign, digits, optional fractional part); anything else is a
`ValueError`, i.e. `none`. -/
def parseDigits (l : List Char) : Option Nat :=
  if l = [] then none
  else l.foldl (fun acc c =>
    match acc with
    | none => none
    | some n => if c.isDigit then some (n * 10 + (c.toNat - 48)) else none) (some 0)

def parseFloat (s : String) : Option Rat :=
  let l := (pyStrip s).data
  let (sign, l) : Rat × List Char :=
    match l with
    | '-' :: t => (-1, t)
    | '+' :: t => (1, t)
    | t => (1, t)
  let intPart := l.takeWhile (· ≠ '.')
  let rest := l.dropWhile (· ≠ '.')
  match rest with
  | [] =>
    match parseDigits intPart with
    | some n => some (sign * n)
    | none => none
  | '.' :: frac =>
    match parseDigits intPart, parseDigits frac with
    | some n, some f => some (sign * (n + (f : Rat) / ((10 : Rat) ^ frac.length)))
    | _, _ => none
  | _ => none

/-- Python `int(s)`: optional sign and digits only. -/
def parsePyInt (s : String) : Option Int :=
  let l := (pyStrip s).data
  match l with
  | '-' :: t => (parseDigits t).map fun n => -(n : Int)
  | '+' :: t => (parseDigits t).map fun n => (n : Int)
  | t => (parseDigits t).map fun n => (n : Int)

/-- Stable insertion into a sorted list: the new element goes after
every element that compares at or below it. -/
def insertSorted {α : Type} (le : α → α → Bool) (x : α) : List α → List α
  | [] => [x]
  | y :: t => if le y x then y :: insertSorted le x t else x :: y :: t

/-- Stable sort (model of Python `sorted` and of `pandas.sort_values`
on the chosen key). -/
def pySorted {α : Type} (le : α → α → Bool) (l : List α) : List α :=
  l.foldl (fun acc x => insertSorted le x acc) []

/-- Duplicate removal keeping first occurrences (only the member set
matters here: the result is sorted afterwards, as `sorted(set(...))`). -/
def dedupAux {α : Type} [DecidableEq α] (seen : List α) : List α → List α
  | [] => []
  | x :: t => if x ∈ seen then dedupAux seen t
      else x :: dedupAux (x :: seen) t

def pyDedup {α : Type} [DecidableEq α] (l : List α) : List α := dedupAux [] l

/-- ISO `YYYY-MM-DD` date encoded so that integer order is
chronological order; models `pd.to_datetime` on datepicker values. -/
def parseDate (s : String) : Int :=
  match splitChar '-' s with
  | [y, m, d] =>
    match parseDigits y.data, parseDigits m.data, parseDigits d.data with
    | some y, some m, some d => (y : Int) * 10000 + (m : Int) * 100 + (d : Int)
    | _, _, _ => 0
  | _ => 0

/-! ### DataFrame model

A pandas DataFrame is modelled as an ordered list of named, dtyped
columns together with row-major cells.  The dtype is column metadata,
as in pandas (so `head` preserves it even when the remaining cells
would look different). -/

inductive Dtype
  | obj
  | num
  | dt
  deriving DecidableEq, Repr

inductive Cell
  | str (s : String)
  | num (q : Rat)
  | date (d : Int)
  | null
  deriving DecidableEq, Repr

structure Frame where
  cols : List (String × Dtype)
  rows : List (List Cell)
  deriving DecidableEq, Repr

instance : Inhabited Frame := ⟨⟨[], []⟩⟩

def Frame.nrows (f : Frame) : Nat := f.rows.length

def Frame.colNames (f : Frame) : List String := f.cols.map Prod.fst

/-- `df.head(n)` (with `.copy()`: frames are values here). -/
def Frame.head (f : Frame) (n : Nat) : Frame := ⟨f.cols, f.rows.take n⟩

/-- Index of a column name, if present. -/
def Frame.colIdx (f : Frame) (name : String) : Option Nat :=
  f.colNames.indexOf? name

/-- Dtype of the column at index `j`. -/
def Frame.dtypeAt (f : Frame) (j : Nat) : Dtype :=
  ((f.cols.getD j ("", Dtype.obj))).2

/-- Boolean-mask row filtering on the cell of column `j`
(`df[pred(df[col])]`). -/
def Frame.filterRows (f : Frame) (j : Nat) (p : Cell → Bool) : Frame :=
  ⟨f.cols, f.rows.filter fun r => p (r.getD j Cell.null)⟩

/-- Key used by `sort_values`: numbers before their numeric order is
compared, strings lexicographically, dates chronologically. -/
def Cell.leKey : Cell → Cell → Bool
  | Cell.num a, Cell.num b => a ≤ b
  | Cell.str a, Cell.str b => a ≤ b
  | Cell.date a, Cell.date b => a ≤ b
  | Cell.null, _ => true
  | _, Cell.null => false
  | Cell.num _, _ => true
  | _, Cell.num _ => false
  | Cell.str _, _ => true
  | _, Cell.str _ => false

/-- `df.sort_values(by=col, ascending=asc)` on column index `j`
(deterministic stable model of the pandas sort). -/
def Frame.sortBy (f : Frame) (j : Nat) (asc : Bool) : Frame :=
  ⟨f.cols, pySorted (fun a b =>
    let x := a.getD j Cell.null
    let y := b.getD j Cell.null
    if asc then Cell.leKey x y else Cell.leKey y x) f.rows⟩

/-- Convert the cells of column `j` from strings to dates and set its
dtype; models `pd.to_datetime` on an object column. -/
def Frame.convertDateCol (f : Frame) (j : Nat) : Frame :=
  ⟨f.cols.enum.map fun (i, c) => if i = j then (c.1, Dtype.dt) else c,
   f.rows.map fun r => r.enum.map fun (i, c) =>
     if i = j then
       match c with
       | Cell.str s => Cell.date (parseDate s)
       | c => c
     else c⟩

/-! ### `_format_dataframe_for_display` and the text table -/

/-- The currency keyword set of `_format_dataframe_for_display`. -/
def CURRENCY_KEYWORDS : List String :=
  ["SALES", "AMOUNT", "REVENUE", "TOTAL", "COST", "PRICE", "VALUE"]

def isCurrencyCol (name : String) : Bool :=
  CURRENCY_KEYWORDS.any fun k => strContains (strUpper name) k

/-- The per-value lambda of the non-currency branch:
commas for magnitude at least 1000, else two decimals when fractional,
else `str(int(x))`. -/
def fmtRegular (q : Rat) : String :=
  if |q| ≥ 1000 then fmtComma0 q
  else if q ≠ ((pyTrunc q : Int) : Rat) then fmt2f q
  else plainInt (pyTrunc q)

/-- Formatting applied to one cell of a numeric column. -/
def formatNumCell (currency : Bool) : Cell → Cell
  | Cell.num q => Cell.str (if currency then fmtCurrency q else fmtRegular q)
  | Cell.null => Cell.str ""
  | c => c

/-- `_format_dataframe_for_display(df)`: every numeric-dtype column is
turned into strings, currency-keyword columns via `f"${x:,.0f}"`, the
rest via the comma / two-decimal / integer ladder.  The produced
columns hold strings, hence dtype `obj`. -/
def _format_dataframe_for_display (df : Frame) : Frame :=
  ⟨df.cols.map fun c => if c.2 = Dtype.num then (c.1, Dtype.obj) else c,
   df.rows.map fun r => List.zipWith
     (fun (c : String × Dtype) cell =>
       if c.2 = Dtype.num then formatNumCell (isCurrencyCol c.1) cell else cell)
     df.cols r⟩

/-- Value of a cell as rendered inside the text table. -/
def Cell.render : Cell → String
  | Cell.str s => s
  | Cell.num q => if q.den = 1 then plainInt q.num else fmt2f q
  | Cell.date d => plainInt d
  | Cell.null => "NaN"

/-- `''.rjust`: left padding with spaces up to the column width. -/
def padLeft (w : Nat) (s : String) : String :=
  String.mk (List.replicate (w - s.length) ' ') ++ s

/-- Width of each column: maximum of the header and every shown value. -/
def colWidths (names : List String) (rws : List (List String)) : List Nat :=
  names.enum.map fun (j, h) =>
    max h.length ((rws.map fun r => (r.getD j "").length).foldr max 0)

def lineOf (ws : List Nat) (cells : List String) : String :=
  joinWith " " (List.zipWith padLeft ws cells)

/-- `df.to_string(index=False)`: right-justified columns separated by a
single space, header line first, lines joined by newlines. -/
def Frame.toDisplayString (f : Frame) : String :=
  let names := f.colNames
  let rws := f.rows.map fun r => r.map Cell.render
  let ws := colWidths names rws
  joinWith "\n" (lineOf ws names :: rws.map (lineOf ws))

/-- `df.head(k)` formatted and rendered to text, as every branch of
`_get_safe_table_text` does it. -/
def renderAt (df : Frame) (k : Nat) : String :=
  (_format_dataframe_for_display (df.head k)).toDisplayString

/-! ### `_get_safe_table_text` -/

def rowMsgDropdown (mr n : Nat) : String :=
  "\n\n(Showing " ++ commaNat mr ++ " of " ++ commaNat n ++
    " rows. Use dropdown to see more.)"

def rowMsgReducedFrom (fb n r : Nat) : String :=
  "\n\n(Showing " ++ commaNat fb ++ " of " ++ commaNat n ++
    " rows - reduced from " ++ commaNat r ++ " due to Slack size limits.)"

def rowMsgReduced (s n : Nat) : String :=
  "\n\n(Showing " ++ commaNat s ++ " of " ++ commaNat n ++
    " rows - reduced due to Slack size limits.)"

def truncNote : String :=
  "\n\n(Table truncated for Slack display. Use dropdown to adjust.)"

/-- The `fallback_attempts` loop: first strictly-smaller row count whose
rendering fits the 2,800-character budget. -/
def tryFallbacks (df : Frame) (tm : String) (r n : Nat) :
    List Nat → Option (String × Nat)
  | [] => none
  | fb :: rest =>
    if fb ≥ r then tryFallbacks df tm r n rest
    else
      let t := renderAt df fb ++ tm ++ rowMsgReducedFrom fb n r
      if t.length ≤ 2800 then some (t, fb) else tryFallbacks df tm r n rest

/-- The `while safe_rows > 3` loop (visits 10, 8, 6, 4); the fuel
argument makes the stepping structural and always suffices. -/
def safeLoopAux (df : Frame) (tm : String) (n : Nat) : Nat → Nat →
    Option (String × Nat)
  | 0, _ => none
  | fuel + 1, s =>
    if s > 3 then
      let t := renderAt df s ++ tm ++ rowMsgReduced s n
      if t.length ≤ 2800 then some (t, s) else safeLoopAux df tm n fuel (s - 2)
    else none

def safeLoop (df : Frame) (tm : String) (n : Nat) (s : Nat) :
    Option (String × Nat) :=
  safeLoopAux df tm n s s

/-- The hard-truncation last resort: three rows, text clipped at 2,700
characters. -/
def lastResort (df : Frame) : String × Nat :=
  let tableText := renderAt df 3
  let tableText :=
    if tableText.length > 2700 then pyTake tableText 2700 ++ "..." else tableText
  (tableText ++ truncNote, 3)

/-- `_get_safe_table_text(df, truncated_message, requested_rows)`:
returns Slack-safe table text and the row count actually shown. -/
def _get_safe_table_text (df : Frame) (truncated_message : String)
    (requested_rows : Option Nat) : String × Nat :=
  let n := df.nrows
  let max_rows := match requested_rows with
    | some r => min n r
    | none => min n 10
  let base := renderAt df max_rows
  let rowMsg := if max_rows < n then rowMsgDropdown max_rows n else ""
  let full := base ++ truncated_message ++ rowMsg
  if full.length ≤ 2800 then (full, max_rows)
  else
    let fb := match requested_rows with
      | some r =>
        if r > 25 then
          tryFallbacks df truncated_message r n
            [max 25 (r / 2), max 20 (r / 4), max 15 (r / 8), 10]
        else none
      | none => none
    match fb with
    | some res => res
    | none =>
      match safeLoop df truncated_message n 10 with
      | some res => res
      | none => lastResort df

/-! ### Slack Block Kit model

Only the parts of the block dictionaries the handlers construct or
inspect are modelled.  A `rich_text` sub-element carries its nested
text objects in `elements`; the dictionary key `"text"` is absent on
them, which the optional field `textAttr` mirrors (`el.get("text")`
reads it). -/

structure TextObj where
  text : String
  bold : Bool := false
  deriving DecidableEq, Repr

structure RichEl where
  type : String
  elements : List TextObj := []
  textAttr : Option String := none
  deriving DecidableEq, Repr

structure SelectOption where
  text : String
  value : String
  deriving DecidableEq, Repr

inductive ActionEl
  | button (text : String) (style : Option String) (actionId : String)
  | staticSelect (options : List SelectOption) (initialOption : SelectOption)
      (actionId : String)
  deriving DecidableEq, Repr

def ActionEl.actionIdOf : ActionEl → String
  | ActionEl.button _ _ a => a
  | ActionEl.staticSelect _ _ a => a

inductive Block
  | section (text : String)
  | richText (elements : List RichEl)
  | actions (elements : List ActionEl)
  | divider
  | context (text : String)
  deriving DecidableEq, Repr

/-! Action id constants from `app.py` / `data_filter_modal.py`. -/

def SQL_SHOW_BUTTON_ACTION_ID : String := "show_full_sql_query_button"
def REFINE_QUERY_BUTTON_ACTION_ID : String := "refine_query_button"
def REFINE_PROMPT_MODAL_ACTION_ID : String := "refine_prompt_modal"
def RENDER_CHART_BUTTON_ACTION_ID : String := "ai_chart_button"
def DOWNLOAD_DATA_BUTTON_ACTION_ID : String := "download_data_button"
def ROW_LIMIT_DROPDOWN_ACTION_ID : String := "row_limit_select"
def FILTER_DATA_BUTTON_ACTION_ID : String := "filter_data_button"
def FILTER_MODAL_CALLBACK_ID : String := "data_filter_modal"

/-- `get_sql_code_block(sql_query)`. -/
def get_sql_code_block (sql_query : String) : Block :=
  Block.richText
    [⟨"rich_text_section", [⟨"SQL Query:", true⟩], none⟩,
     ⟨"rich_text_preformatted", [⟨sql_query, false⟩], none⟩]

def get_show_sql_query_button_element : ActionEl :=
  ActionEl.button "Show SQL Query" none SQL_SHOW_BUTTON_ACTION_ID

def get_filter_data_button_element : ActionEl :=
  ActionEl.button "Filter Query" (some "primary") FILTER_DATA_BUTTON_ACTION_ID

def get_render_chart_button_element : ActionEl :=
  ActionEl.button "AI Chart" (some "primary") RENDER_CHART_BUTTON_ACTION_ID

def get_download_data_button_element : ActionEl :=
  ActionEl.button "Download Data" (some "primary") DOWNLOAD_DATA_BUTTON_ACTION_ID

def get_refine_prompt_button_element : ActionEl :=
  ActionEl.button "Refine Prompt" (some "danger") REFINE_PROMPT_MODAL_ACTION_ID

/-- Python `a or b` on an optional int (both `None` and `0` are falsy). -/
def pyOrNat (a : Option Nat) (d : Nat) : Nat :=
  match a with
  | some v => if v ≠ 0 then v else d
  | none => d

/-- The `valid_options` computation of the dropdown: standard options
capped by the data size, the `[min(10, data_size)]` fallback, and the
exact data size appended when above the largest kept option and at
most 200. -/
def row_limit_valid_options (data_size : Option Nat) : List Nat :=
  let base_options : List Nat := [10, 25, 50, 100, 200]
  match data_size with
  | some ds =>
    let v := base_options.filter (· ≤ ds)
    let v :=
      if v = [] then [min 10 ds]
      else if ¬ v.contains 10 ∧ ds ≥ 10 then 10 :: v
      else v
    if ds > v.foldr max 0 ∧ ds ≤ 200 then v ++ [ds] else v
  | none => base_options

/-- `sorted(set(valid_options))`. -/
def row_limit_sorted_values (data_size : Option Nat) : List Nat :=
  pySorted (· ≤ ·) (pyDedup (row_limit_valid_options data_size))

/-- `get_row_limit_dropdown_element(data_size, selected_value)` — the
live definition (`app.py` line 555), which also consults the module
global `preserved_row_limit_for_refinement` (passed explicitly here). -/
def get_row_limit_dropdown_element (data_size : Option Nat)
    (selected_value : Option Nat) (preserved : Option Nat) : ActionEl :=
  let default_value := plainNat (pyOrNat selected_value (pyOrNat preserved 10))
  let options := (row_limit_sorted_values data_size).map fun v =>
    SelectOption.mk (plainNat v ++ " " ++ if v = 1 then "Row" else "Rows") (plainNat v)
  let default_value :=
    if (options.map SelectOption.value).contains default_value then default_value
    else (options.getD 0 ⟨"", ""⟩).value
  let initial_option :=
    (options.find? fun o => o.value = default_value).getD (options.getD 0 ⟨"", ""⟩)
  ActionEl.staticSelect options initial_option ROW_LIMIT_DROPDOWN_ACTION_ID

def dropdownOptions : ActionEl → List SelectOption
  | ActionEl.staticSelect o _ _ => o
  | _ => []

def dropdownInitial : ActionEl → SelectOption
  | ActionEl.staticSelect _ i _ => i
  | _ => ⟨"", ""⟩

/-- `get_action_buttons_block(...)` (the `preserved` global is passed
explicitly, as for the dropdown). -/
def get_action_buttons_block (include_show_sql : Bool) (data_size : Option Nat)
    (include_row_limit : Bool := true) (include_refine_prompt : Bool := false)
    (selected_row_limit : Option Nat := none) (preserved : Option Nat := none) :
    Block :=
  let elements :=
    (if include_row_limit then
      [get_row_limit_dropdown_element data_size selected_row_limit preserved]
     else []) ++
    (if include_show_sql then [get_show_sql_query_button_element] else []) ++
    [get_filter_data_button_element, get_render_chart_button_element,
     get_download_data_button_element] ++
    (if include_refine_prompt then [get_refine_prompt_button_element] else [])
  Block.actions elements

/-- A one-row, one-column result whose single value is 1,400 characters
wide: every rendering of it (any row count) is a 2,801-character text,
over the 2,800-character budget. -/
def wideFrame : Frame :=
  ⟨[("A", Dtype.obj)], [[Cell.str (String.mk (List.replicate 1400 'a'))]]⟩

/-! ### Filter values (the modal submission dictionary)

`extract_filter_values_from_modal` produces a dict whose keys are
`start_date` / `end_date` (optional date strings), `*_select`
(lists of selected option values; `order_by_select` a single option),
`*_min_threshold` / `*_max_threshold` / `*_threshold` (raw strings)
and `top_n`.  The dict is modelled as an insertion-ordered association
list of tagged values. -/

inductive FVal
  | noneV
  | s (v : String)
  | opts (vs : List String)
  | opt (v : String)
  deriving DecidableEq, Repr

/-- Python truthiness of the stored value. -/
def FVal.truthy : FVal → Bool
  | FVal.noneV => false
  | FVal.s v => v ≠ ""
  | FVal.opts vs => vs ≠ []
  | FVal.opt _ => true

abbrev FilterValues := List (String × FVal)

def fvGet (fv : FilterValues) (k : String) : Option FVal :=
  (fv.find? fun e => e.1 = k).map Prod.snd

/-- Raw string payload (`str(value)`); only `FVal.s` reaches the places
this is used. -/
def FVal.rawStr : FVal → String
  | FVal.s v => v
  | _ => ""

/-- `[opt['value'] for opt in values]`: list entries contribute their
values; a single `selected_option` dict would be iterated over its
keys (`text`, `value`) by Python, which is mirrored literally. -/
def FVal.selectedValues : FVal → List String
  | FVal.opts vs => vs
  | FVal.opt _ => ["text", "value"]
  | _ => []

/-- Python `repr` of a list of strings, as interpolated into
`f"{col} in {selected_values}"`. -/
def pyReprList (vs : List String) : String :=
  "[" ++ joinWith ", " (vs.map fun v => "\x27" ++ v ++ "\x27") ++ "]"

structure ThreshEntry where
  minV : Option Rat := none
  maxV : Option Rat := none
  deriving DecidableEq, Repr

/-- Dict-style upsert preserving first-insertion order. -/
def upsertThresh (l : List (String × ThreshEntry)) (k : String)
    (f : ThreshEntry → ThreshEntry) : List (String × ThreshEntry) :=
  if (l.find? fun e => e.1 = k).isSome then
    l.map fun e => if e.1 = k then (e.1, f e.2) else e
  else l ++ [(k, f {})]

/-- Cell-level comparisons used by the boolean masks.  pandas compares
dates with dates and numbers with numbers; nulls (NaN/NaT) compare
false and are dropped by the mask. -/
def cellDateGe (bound : Int) : Cell → Bool
  | Cell.date d => bound ≤ d
  | _ => false

def cellDateLe (bound : Int) : Cell → Bool
  | Cell.date d => d ≤ bound
  | _ => false

def cellNumGe (bound : Rat) : Cell → Bool
  | Cell.num q => bound ≤ q
  | _ => false

def cellNumLe (bound : Rat) : Cell → Bool
  | Cell.num q => q ≤ bound
  | _ => false

def cellIsin (vals : List String) : Cell → Bool
  | Cell.str s => vals.contains s
  | _ => false

/-- `apply_pandas_filters(df, filter_values)` with Python object
semantics made explicit: `heap` is the store of live DataFrame
objects, `dfRef` the argument reference.  `filtered_df = df.copy()`
allocates a fresh cell; the single in-place statement
`filtered_df[date_col] = pd.to_datetime(...)` writes to that cell;
every other step rebinds `filtered_df` to a fresh derived frame.
Returns the final heap, the filtered frame and the applied-filter
descriptions. -/
def apply_pandas_filters_st (heap : List Frame) (dfRef : Nat)
    (filter_values : FilterValues) : List Frame × Frame × List String :=
  let df := heap.getD dfRef default
  let copyRef := heap.length
  let heap := heap ++ [df]
  let applied : List String := []
  -- date range filters
  let date_columns := df.colNames.filter fun c =>
    strContains (strUpper c) "DATE" || strContains (strUpper c) "PERIOD"
  let (heap, filtered_df, applied) :=
    match date_columns with
    | [] => (heap, df, applied)
    | date_col :: _ =>
      let j := (df.colIdx date_col).getD 0
      let start_date := fvGet filter_values "start_date"
      let end_date := fvGet filter_values "end_date"
      let sTruthy := match start_date with | some v => v.truthy | none => false
      let eTruthy := match end_date with | some v => v.truthy | none => false
      if sTruthy || eTruthy then
        let (heap, work) :=
          if df.dtypeAt j = Dtype.obj then
            (heap.set copyRef (df.convertDateCol j), df.convertDateCol j)
          else (heap, df)
        let (work, applied) :=
          if sTruthy then
            let s := (start_date.getD FVal.noneV).rawStr
            (work.filterRows j (cellDateGe (parseDate s)),
             applied ++ [date_col ++ " >= " ++ s])
          else (work, applied)
        let (work, applied) :=
          if eTruthy then
            let s := (end_date.getD FVal.noneV).rawStr
            (work.filterRows j (cellDateLe (parseDate s)),
             applied ++ [date_col ++ " <= " ++ s])
          else (work, applied)
        (heap, work, applied)
      else (heap, df, applied)
  -- categorical filters
  let (filtered_df, applied) := filter_values.foldl
    (fun (acc : Frame × List String) kv =>
      let (work, applied) := acc
      if pyEndsWith kv.1 "_select" ∧ kv.2.truthy then
        let col_name := strUpper (pyReplace kv.1 "_select" "")
        match df.colNames.find? fun c => strUpper c = col_name with
        | some col =>
          let j := (df.colIdx col).getD 0
          let selected_values := kv.2.selectedValues
          (work.filterRows j (cellIsin selected_values),
           applied ++ [col ++ " in " ++ pyReprList selected_values])
        | none => (work, applied)
      else (work, applied))
    (filtered_df, applied)
  -- numeric threshold filters: group min/max by column
  let threshold_filters := filter_values.foldl
    (fun (acc : List (String × ThreshEntry)) kv =>
      if (pyEndsWith kv.1 "_min_threshold" || pyEndsWith kv.1 "_max_threshold" ||
          pyEndsWith kv.1 "_threshold") ∧ kv.2.truthy then
        match parseFloat (pyReplace kv.2.rawStr "," "") with
        | some threshold =>
          if pyEndsWith kv.1 "_min_threshold" then
            upsertThresh acc (strUpper (pyReplace kv.1 "_min_threshold" ""))
              fun e => { e with minV := some threshold }
          else if pyEndsWith kv.1 "_max_threshold" then
            upsertThresh acc (strUpper (pyReplace kv.1 "_max_threshold" ""))
              fun e => { e with maxV := some threshold }
          else
            upsertThresh acc (strUpper (pyReplace kv.1 "_threshold" ""))
              fun e => { e with minV := some threshold }
        | none => acc
      else acc)
    []
  -- apply the threshold filters
  let (filtered_df, applied) := threshold_filters.foldl
    (fun (acc : Frame × List String) ct =>
      let (work, applied) := acc
      match df.colNames.find? fun c => strUpper c = ct.1 with
      | some col =>
        let j := (df.colIdx col).getD 0
        let (work, applied) :=
          match ct.2.minV with
          | some m => (work.filterRows j (cellNumGe m),
                       applied ++ [col ++ " >= " ++ fmtComma0 m])
          | none => (work, applied)
        match ct.2.maxV with
        | some m => (work.filterRows j (cellNumLe m),
                     applied ++ [col ++ " <= " ++ fmtComma0 m])
        | none => (work, applied)
      | none => (work, applied))
    (filtered_df, applied)
  -- order by
  let (filtered_df, applied) :=
    match fvGet filter_values "order_by_select" with
    | some (FVal.opt order_value) =>
      if strContains order_value "_asc" then
        let column := pyReplace order_value "_asc" ""
        if filtered_df.colNames.contains column then
          ((filtered_df.sortBy ((filtered_df.colIdx column).getD 0) true),
           applied ++ ["Ordered by " ++ pyTitle (replaceChar column '_' ' ') ++
             " (ascending)"])
        else (filtered_df, applied)
      else if strContains order_value "_desc" then
        let column := pyReplace order_value "_desc" ""
        if filtered_df.colNames.contains column then
          ((filtered_df.sortBy ((filtered_df.colIdx column).getD 0) false),
           applied ++ ["Ordered by " ++ pyTitle (replaceChar column '_' ' ') ++
             " (descending)"])
        else (filtered_df, applied)
      else (filtered_df, applied)
    | _ => (filtered_df, applied)
  -- top N limit
  let (filtered_df, applied) :=
    match fvGet filter_values "top_n" with
    | some v =>
      if v.truthy then
        match parsePyInt v.rawStr with
        | some nInt =>
          if 0 < nInt ∧ nInt < (filtered_df.nrows : Int) then
            (filtered_df.head nInt.toNat,
             applied ++ ["Limited to top " ++ plainInt nInt ++ " rows"])
          else (filtered_df, applied)
        | none => (filtered_df, applied)
      else (filtered_df, applied)
    | none => (filtered_df, applied)
  (heap, filtered_df, applied)

/-- The value-level view of `apply_pandas_filters`: result frame and
applied-filter descriptions. -/
def apply_pandas_filters (df : Frame) (filter_values : FilterValues) :
    Frame × List String :=
  let r := apply_pandas_filters_st [df] 0 filter_values
  (r.2.1, r.2.2)

/-! ### `_convert_filter_to_friendly_format` -/

/-- Leading `\w+` run of the two regexes. -/
def wordPrefix (l : List Char) : List Char :=
  l.takeWhile fun c => c.isAlphanum || c = '_'

/-- Python `s.strip("\x27\"")`: drop every leading and trailing quote. -/
def stripQuotes (s : String) : String :=
  let qs : List Char := ['\x27', '"']
  String.mk (((s.data.dropWhile qs.contains).reverse.dropWhile qs.contains).reverse)

/-- Currency keyword test of `_convert_filter_to_friendly_format`
(case-sensitive, applied to the raw matched column name). -/
def friendlyIsCurrency (w : String) : Bool :=
  strContains w "SALES" || strContains w "AMOUNT" || strContains w "REVENUE" ||
  strContains w "TOTAL" || strContains w "COST" || strContains w "PRICE" ||
  strContains w "VALUE"

/-- `re.match(r"(\w+) in \[(.+)\]", s)`: word, literal `" in ["`, then a
nonempty greedy group ending at the last `]`. -/
def matchInFilter (s : String) : Option (String × String) :=
  let w := wordPrefix s.data
  if w = [] then none
  else
    let rest := s.data.drop w.length
    if " in [".data.isPrefixOf rest then
      let inner := rest.drop 5
      match (inner.reverse.findIdx? (· = ']')) with
      | some k =>
        let lastIdx := inner.length - 1 - k
        if 1 ≤ lastIdx then some (String.mk w, String.mk (inner.take lastIdx))
        else none
      | none => none
    else none

/-- `re.match(r"(\w+) ([><=]+) (.+)", s)`. -/
def matchCompFilter (s : String) : Option (String × String × String) :=
  let w := wordPrefix s.data
  if w = [] then none
  else
    match s.data.drop w.length with
    | ' ' :: r1 =>
      let ops := r1.takeWhile fun c => c = '>' || c = '<' || c = '='
      if ops = [] then none
      else
        match r1.drop ops.length with
        | ' ' :: val => if val = [] then none
            else some (String.mk w, String.mk ops, String.mk val)
        | _ => none
    | _ => none

/-- `_convert_filter_to_friendly_format(filter_desc)`. -/
def _convert_filter_to_friendly_format (filter_desc : String) : String :=
  match matchInFilter filter_desc with
  | some (w, values_str) =>
    let column := pyTitle (replaceChar w '_' ' ')
    let values := (splitChar ',' values_str).map fun v => stripQuotes (pyStrip v)
    column ++ ": " ++ joinWith ", " values
  | none =>
    match matchCompFilter filter_desc with
    | some (w, operator, value) =>
      let column := pyTitle (replaceChar w '_' ' ')
      let formatted_value :=
        if friendlyIsCurrency w then
          match parseFloat (pyReplace value "," "") with
          | some numeric_value => fmtCurrency numeric_value
          | none => value
        else
          match parseFloat (pyReplace value "," "") with
          | some numeric_value =>
            if numeric_value ≥ 1000 then fmtComma0 numeric_value else value
          | none => value
      column ++ ": " ++ operator ++ " " ++ formatted_value
    | none => pyTitle (replaceChar filter_desc '_' ' ')

/-! ### `create_filtered_result_message` -/

def noResultsText : String :=
  "🚫 *There were no results for your query. This may be a permissions issue.*"

/-- `create_filtered_result_message(filtered_df, applied_filters,
original_count)`. -/
def create_filtered_result_message (filtered_df : Frame)
    (applied_filters : List String) (original_count : Nat) : List Block :=
  let filter_summary :=
    if applied_filters ≠ [] then
      "🔍 Applied Filters:\n" ++
        joinWith "\n" (applied_filters.map _convert_filter_to_friendly_format) ++
        "\n\nResults: " ++ commaNat filtered_df.nrows ++ " of " ++
        commaNat original_count ++ " rows"
    else "📊 All Data - no filters applied"
  let blocks := [Block.section filter_summary]
  if 0 < filtered_df.nrows then
    let (table_text, actual_rows_displayed) :=
      _get_safe_table_text filtered_df "" (some (min filtered_df.nrows 25))
    blocks ++
      [Block.richText
        [⟨"rich_text_quote", [⟨"Filtered Results:", false⟩], none⟩,
         ⟨"rich_text_preformatted", [⟨table_text, false⟩], none⟩],
       get_action_buttons_block false (some filtered_df.nrows) true false
         (some actual_rows_displayed) none]
  else
    blocks ++
      [Block.section noResultsText,
       get_action_buttons_block false (some 0) false false none none]

/-! ### `apply_entitlement_filter` -/

/-- The hardcoded demo user of `app.py`. -/
def CURRENT_USER_EMAIL : String := "sarah.johnson@company.com"

/-- The entitlement CTE text shared by both branches (the WITH-branch
appends `,\n`, the plain branch is prefixed `WITH ` and ends `\n`). -/
def entitlementCtes (email : String) : String :=
  "RECURSIVE accessible_employees AS (\n" ++
  "    -- Start with current user\n" ++
  "    SELECT \n" ++
  "        se.EMPLOYEE_ID,\n" ++
  "        se.EMAIL,\n" ++
  "        se.ROLE,\n" ++
  "        0 as HIERARCHY_DEPTH\n" ++
  "    FROM SLACK_SALES_DEMO.SLACK_SCHEMA.SALES_EMPLOYEES se\n" ++
  "    WHERE se.EMAIL = \x27" ++ email ++ "\x27 AND se.ACTIVE = TRUE\n" ++
  "    \n" ++
  "    UNION ALL\n" ++
  "    \n" ++
  "    -- Recursively get all subordinates (people who report up to current user)\n" ++
  "    SELECT \n" ++
  "        se.EMPLOYEE_ID,\n" ++
  "        se.EMAIL,\n" ++
  "        se.ROLE,\n" ++
  "        ae.HIERARCHY_DEPTH + 1\n" ++
  "    FROM SLACK_SALES_DEMO.SLACK_SCHEMA.SALES_EMPLOYEES se\n" ++
  "    JOIN accessible_employees ae ON se.MANAGER_ID = ae.EMPLOYEE_ID\n" ++
  "    WHERE se.ACTIVE = TRUE AND ae.HIERARCHY_DEPTH < 10  -- Prevent infinite recursion\n" ++
  "),\n" ++
  "filtered_semantic_view AS (\n" ++
  "    SELECT sv.*\n" ++
  "    FROM SLACK_SALES_DEMO.SLACK_SCHEMA.SALES_SEMANTIC_VIEW sv\n" ++
  "    JOIN accessible_employees ae ON sv.EMPLOYEE_ID = ae.EMPLOYEE_ID\n" ++
  ")"

/-- `apply_entitlement_filter(sql_query)` with the module global
`CURRENT_USER_EMAIL` passed explicitly. -/
def apply_entitlement_filter_email (email sql_query : String) : String :=
  if email = "" then sql_query
  else
    let modified_query :=
      pyReplace
        (pyReplace sql_query "FROM slack_sales_demo.slack_schema.sales_semantic_view"
          "FROM filtered_semantic_view")
        "FROM SLACK_SALES_DEMO.SLACK_SCHEMA.SALES_SEMANTIC_VIEW"
        "FROM filtered_semantic_view"
    if pyStartsWith (strUpper (pyStrip modified_query)) "WITH" then
      let with_pos :=
        match findSub (strUpper modified_query) "WITH" with
        | some i => i + 4
        | none => 3
      pyTake modified_query with_pos ++ " " ++ (entitlementCtes email ++ ",\n") ++
        pyStrip (pyDrop modified_query with_pos)
    else
      ("WITH " ++ entitlementCtes email ++ "\n") ++ rstripChar modified_query ';'

def apply_entitlement_filter (sql_query : String) : String :=
  apply_entitlement_filter_email CURRENT_USER_EMAIL sql_query

/-! ### Process state and transport actions

The four module-level caches of `app.py`, keyed by Slack message
timestamps.  Dict assignment is modelled by consing (newest entry
shadows), lookup by first match. -/

def cacheLookup {α : Type} (l : List (String × α)) (k : String) : Option α :=
  (l.find? fun e => e.1 = k).map Prod.snd

def cachePut {α : Type} (l : List (String × α)) (k : String) (v : α) :
    List (String × α) :=
  (k, v) :: l

structure BotState where
  global_sql_cache : List (String × String) := []
  global_dataframe_cache : List (String × Frame) := []
  global_original_dataframe_cache : List (String × Frame) := []
  global_current_filters_cache : List (String × FilterValues) := []
  deriving DecidableEq, Repr

/-- Observable Slack side effects of one handler run. -/
inductive SlackAction
  | postMessage (channel text : String) (blocks : List Block) (ephemeral : Bool)
  | chatUpdate (channel ts text : String) (blocks : List Block)
  | openView (callbackId privateMetadata : String)
  | uploadFile (filename : String)
  deriving DecidableEq, Repr

def pyTruthyStr : Option String → Bool
  | some s => s ≠ ""
  | none => false

/-! ### `handle_show_sql_query` (SQL disclosure button) -/

def sqlHandlerActionIds : List String :=
  [REFINE_QUERY_BUTTON_ACTION_ID, REFINE_PROMPT_MODAL_ACTION_ID,
   SQL_SHOW_BUTTON_ACTION_ID, RENDER_CHART_BUTTON_ACTION_ID,
   DOWNLOAD_DATA_BUTTON_ACTION_ID, ROW_LIMIT_DROPDOWN_ACTION_ID]

/-- The action-buttons block the handler filters out before rebuilding. -/
def isTrackedActionsBlock : Block → Bool
  | Block.actions es => es.any fun e => sqlHandlerActionIds.contains e.actionIdOf
  | _ => false

/-- The already-shown test of the handler: a `rich_text` block with a
`rich_text_section` element whose dictionary key `"text"` equals
`"SQL Query:"` (`el.get("text")` is `textAttr` here; the section built
by `get_sql_code_block` keeps its text nested under `elements`). -/
def isSqlShownBlock : Block → Bool
  | Block.richText els =>
    els.any fun el => el.type = "rich_text_section" ∧ el.textAttr = some "SQL Query:"
  | _ => false

def handle_show_sql_query (st : BotState) (message_ts channel_id : String)
    (current_blocks : List Block) : List SlackAction :=
  let sql_query := cacheLookup st.global_sql_cache message_ts
  let blocks_to_rebuild := current_blocks.filter fun b => ¬ isTrackedActionsBlock b
  let sql_already_displayed := current_blocks.any fun b =>
    ¬ isTrackedActionsBlock b ∧ isSqlShownBlock b
  if pyTruthyStr sql_query ∧ ¬ sql_already_displayed then
    [SlackAction.chatUpdate channel_id message_ts "Your query results and SQL."
      (blocks_to_rebuild ++ [get_sql_code_block (sql_query.getD "")] ++
        [get_action_buttons_block false none])]
  else if sql_already_displayed then
    [SlackAction.postMessage channel_id
      "The SQL query is already displayed in the message above." [] true]
  else
    [SlackAction.chatUpdate channel_id message_ts "Your query results and SQL."
      (blocks_to_rebuild ++ [get_action_buttons_block false none])]

/-! ### `handle_row_limit_change` (row-limit dropdown) -/

/-- Skip test of the empty-result rebuild: existing table sections,
no-result sections, and every actions block. -/
def rowLimitSkipEmpty : Block → Bool
  | Block.section t =>
    pyStartsWith t "```" || strContains t "There were no results"
  | Block.actions _ => true
  | _ => false

/-- Skip test of the normal rebuild: table sections and actions blocks. -/
def rowLimitSkipTable : Block → Bool
  | Block.section t => pyStartsWith t "```"
  | Block.actions _ => true
  | _ => false

/-- The shared rendering tail of `handle_row_limit_change` once a
DataFrame is in hand. -/
def rowLimitRender (df : Frame) (message_ts channel_id : String)
    (selected_limit : Nat) (current_blocks : List Block) : List SlackAction :=
  if df.nrows = 0 then
    let updated_blocks := current_blocks.filter fun b => ¬ rowLimitSkipEmpty b
    let updated_blocks := updated_blocks ++
      [Block.section noResultsText,
       get_action_buttons_block true (some 0) false false none none]
    [SlackAction.chatUpdate channel_id message_ts "No results found." updated_blocks]
  else
    let updated_blocks := current_blocks.filter fun b => ¬ rowLimitSkipTable b
    let (safe_table_content, actual_rows_displayed) :=
      _get_safe_table_text df "" (some selected_limit)
    let table_text := "```\n" ++ safe_table_content ++ "\n```"
    let updated_blocks := updated_blocks ++
      [Block.section table_text,
       get_action_buttons_block true (some df.nrows) true false
         (some actual_rows_displayed) none]
    [SlackAction.chatUpdate channel_id message_ts "Query results updated." updated_blocks]

/-- `handle_row_limit_change`.  Re-execution of the SQL (including the
pandas dtype coercion it performs) is the external `execSql` oracle;
the handler applies the entitlement rewrite before calling it. -/
def handle_row_limit_change (st : BotState) (message_ts channel_id : String)
    (selected_limit : Nat) (current_blocks : List Block)
    (execSql : String → Except String Frame) : List SlackAction :=
  match cacheLookup st.global_dataframe_cache message_ts with
  | some df => rowLimitRender df message_ts channel_id selected_limit current_blocks
  | none =>
    let sql_query := cacheLookup st.global_sql_cache message_ts
    if ¬ pyTruthyStr sql_query then
      [SlackAction.postMessage channel_id
        "Sorry, the query data is no longer available. Please run your query again."
        [] true]
    else
      match execSql (apply_entitlement_filter (sql_query.getD "")) with
      | Except.error e =>
        [SlackAction.postMessage channel_id ("Error re-executing query: " ++ e) [] true]
      | Except.ok df =>
        rowLimitRender df message_ts channel_id selected_limit current_blocks

/-! ### `handle_filter_data_button_click` (opens the filter dialog) -/

/-- The modal body built by `create_filter_modal` is irrelevant to the
verified claims; the action records the callback id and the
`private_metadata` correlation token the modal carries. -/
def handle_filter_data_button_click (st : BotState)
    (message_ts channel_id : String) : List SlackAction :=
  match cacheLookup st.global_original_dataframe_cache message_ts with
  | none =>
    [SlackAction.postMessage channel_id
      ("Sorry, I couldn\x27t retrieve the original data for filtering. " ++
       "The query might have expired or been cleared.") [] false]
  | some _ =>
    [SlackAction.openView FILTER_MODAL_CALLBACK_ID (message_ts ++ "|" ++ channel_id)]

/-! ### `handle_render_chart_button_click` (AI chart button) -/

def analyzingBlocks : List Block :=
  [Block.richText
    [⟨"rich_text_section",
      [⟨"🤖 ", false⟩,
       ⟨"AI is analyzing your data and creating an intelligent chart...", true⟩],
      none⟩]]

def chartCompleteBlocks : List Block :=
  [Block.richText
    [⟨"rich_text_section",
      [⟨"✅ ", false⟩,
       ⟨"AI Chart Complete! The chart below was intelligently selected based on your data and question.", true⟩],
      none⟩]]

/-- `handle_render_chart_button_click`.  The external calls (`ai_plot`,
PNG rendering, the Slack upload) are oracles; `analyzing_ts` is the
timestamp Slack assigns to the progress message (and hence, via
`chat_update`, of the chart message whose caches are populated). -/
def handle_render_chart_button_click (st : BotState)
    (message_ts channel_id analyzing_ts : String)
    (aiPlotOk renderOk uploadOk : Bool) : BotState × List SlackAction :=
  let sql_query := cacheLookup st.global_sql_cache message_ts
  if ¬ pyTruthyStr sql_query then
    (st, [SlackAction.postMessage channel_id
      ("Sorry, I couldn\x27t retrieve the data for AI charting. " ++
       "The query might have expired or been cleared.") [] false])
  else
    match cacheLookup st.global_dataframe_cache message_ts with
    | none =>
      (st, [SlackAction.postMessage channel_id
        "❌ No data available for AI charting. The data may have expired." [] false])
    | some df =>
      let progress := SlackAction.postMessage channel_id "" analyzingBlocks false
      if aiPlotOk then
        if renderOk then
          let upload := SlackAction.uploadFile "ai_chart.png"
          if uploadOk then
            -- `global_original_dataframe_cache.get` may be `None`; storing
            -- `None` is observationally the same as leaving the key absent
            -- for every later `.get`, which is how it is modelled.
            let st := { st with
              global_dataframe_cache :=
                cachePut st.global_dataframe_cache analyzing_ts df,
              global_sql_cache :=
                cachePut st.global_sql_cache analyzing_ts (sql_query.getD ""),
              global_original_dataframe_cache :=
                match cacheLookup st.global_original_dataframe_cache message_ts with
                | some o => cachePut st.global_original_dataframe_cache analyzing_ts o
                | none => st.global_original_dataframe_cache }
            (st, [progress, upload,
              SlackAction.chatUpdate channel_id analyzing_ts "AI Chart Complete"
                chartCompleteBlocks])
          else
            (st, [progress, upload,
              SlackAction.postMessage channel_id
                "❌ Could not upload AI-generated chart." [] false])
        else
          (st, [progress,
            SlackAction.chatUpdate channel_id analyzing_ts "❌ Chart Rendering Error"
              [Block.richText
                [⟨"rich_text_section",
                  [⟨"📊 ", false⟩,
                   ⟨"Chart rendering failed\n\nDataset: " ++ commaNat df.nrows ++ " rows",
                    true⟩], none⟩]]])
      else
        (st, [progress,
          SlackAction.postMessage channel_id
            "❌ Could not generate AI chart for this data." [] false])

/-! ### `handle_download_data_button_click` (CSV download button) -/

def preparingDownloadBlocks : List Block :=
  [Block.richText
    [⟨"rich_text_section",
      [⟨"📥 ", false⟩, ⟨"Preparing data for download...", true⟩],
      none⟩]]

/-- `handle_download_data_button_click`.  `execSql` models
`pd.read_sql`, `file_name` the timestamped CSV name, `download_ts` the
timestamp of the completion message. -/
def handle_download_data_button_click (st : BotState)
    (message_ts channel_id download_ts file_name : String)
    (execSql : String → Except String Frame) (uploadOk : Bool) :
    BotState × List SlackAction :=
  let sql_query := cacheLookup st.global_sql_cache message_ts
  if ¬ pyTruthyStr sql_query then
    (st, [SlackAction.postMessage channel_id
      ("Sorry, I couldn\x27t retrieve the data for download. " ++
       "The query might have expired or been cleared.") [] false])
  else
    let preparing := SlackAction.postMessage channel_id "" preparingDownloadBlocks false
    match execSql (apply_entitlement_filter (sql_query.getD "")) with
    | Except.error e =>
      (st, [preparing, SlackAction.postMessage channel_id
        ("An error occurred while trying to download the data: " ++ e) [] false])
    | Except.ok df =>
      if df.nrows = 0 then
        (st, [preparing, SlackAction.postMessage channel_id
          "The query returned no data to download." [] false])
      else
        let upload := SlackAction.uploadFile file_name
        if uploadOk then
          let download_blocks :=
            [Block.section ("✅ *Data download complete!* Your file `" ++ file_name ++
               "` has been uploaded above."),
             get_action_buttons_block true (some df.nrows) true]
          let st := { st with
            global_dataframe_cache :=
              cachePut st.global_dataframe_cache download_ts df,
            global_sql_cache :=
              cachePut st.global_sql_cache download_ts (sql_query.getD ""),
            global_original_dataframe_cache :=
              cachePut st.global_original_dataframe_cache download_ts
                ((cacheLookup st.global_original_dataframe_cache message_ts).getD df) }
          (st, [preparing, upload,
            SlackAction.postMessage channel_id "Data download complete"
              download_blocks false])
        else (st, [preparing, upload])

/-! ### `handle_clear_all_filters_button_click` -/

def handle_clear_all_filters_button_click (st : BotState)
    (message_ts channel_id new_message_ts : String) : BotState × List SlackAction :=
  match cacheLookup st.global_original_dataframe_cache message_ts with
  | none =>
    (st, [SlackAction.postMessage channel_id
      ("Sorry, I couldn\x27t retrieve the original data. " ++
       "The query might have expired or been cleared.") [] false])
  | some df =>
    let result_blocks := create_filtered_result_message df [] df.nrows
    let original_sql := cacheLookup st.global_sql_cache message_ts
    let st := { st with
      global_dataframe_cache :=
        cachePut st.global_dataframe_cache new_message_ts df,
      global_original_dataframe_cache :=
        cachePut st.global_original_dataframe_cache new_message_ts df,
      global_current_filters_cache :=
        cachePut st.global_current_filters_cache new_message_ts [],
      global_sql_cache :=
        if pyTruthyStr original_sql then
          cachePut st.global_sql_cache new_message_ts (original_sql.getD "")
        else st.global_sql_cache }
    (st, [SlackAction.postMessage channel_id
      "Here are your original results (all filters cleared):" result_blocks false])

/-! ### The two registered filter-modal submission handlers

`app.py` registers a handler for the `data_filter_modal` view callback
twice: first at line 1848 (`@app.view("data_filter_modal")`), then at
line 2099 (`@app.view(FILTER_MODAL_CALLBACK_ID)`), the second
definition rebinding the Python name `handle_filter_modal_submission`.
Both are modelled.  The decorator registers the line-1848 function
object at definition time, and Bolt for Python dispatches a view
submission to the first matching registered listener, so the
line-1848 handler is the one in effect; the rebinding only changes
what the Python name denotes afterwards. -/

/-- The first-registered submission handler (line 1848): on a cache
miss it posts an ephemeral notice; on success it also records the
submitted filter values for the new message. -/
def handle_filter_modal_submission_v1 (st : BotState)
    (message_ts channel_id : String) (filter_values : FilterValues)
    (new_message_ts : String) : BotState × List SlackAction :=
  match cacheLookup st.global_original_dataframe_cache message_ts with
  | none =>
    (st, [SlackAction.postMessage channel_id
      ("Sorry, I couldn\x27t retrieve the data for filtering. " ++
       "The query might have expired or been cleared.") [] true])
  | some df =>
    let (filtered_df, applied_filters) := apply_pandas_filters df filter_values
    let result_blocks := create_filtered_result_message filtered_df applied_filters df.nrows
    let original_sql := cacheLookup st.global_sql_cache message_ts
    let st := { st with
      global_dataframe_cache :=
        cachePut st.global_dataframe_cache new_message_ts filtered_df,
      global_original_dataframe_cache :=
        cachePut st.global_original_dataframe_cache new_message_ts df,
      global_current_filters_cache :=
        cachePut st.global_current_filters_cache new_message_ts filter_values,
      global_sql_cache :=
        if pyTruthyStr original_sql then
          cachePut st.global_sql_cache new_message_ts (original_sql.getD "")
        else st.global_sql_cache }
    (st, [SlackAction.postMessage channel_id "Here are your filtered results:"
      result_blocks false])

/-- The second-registered submission handler (line 2099): on a cache
miss it only prints to the console and returns — no Slack action at
all.  On success it propagates the parent's original DataFrame and SQL
to the new message id (and does not touch the filters cache). -/
def handle_filter_modal_submission (st : BotState)
    (message_ts channel_id : String) (filter_values : FilterValues)
    (new_message_ts : String) : BotState × List SlackAction :=
  match cacheLookup st.global_original_dataframe_cache message_ts with
  | none => (st, [])
  | some df =>
    let (filtered_df, applied_filters) := apply_pandas_filters df filter_values
    let result_blocks := create_filtered_result_message filtered_df applied_filters df.nrows
    let text := if applied_filters ≠ [] then "Here are your filtered results:"
      else "Here are your original results (no filters applied):"
    let original_sql := cacheLookup st.global_sql_cache message_ts
    let st := { st with
      global_dataframe_cache :=
        cachePut st.global_dataframe_cache new_message_ts filtered_df,
      global_sql_cache :=
        if pyTruthyStr original_sql then
          cachePut st.global_sql_cache new_message_ts (original_sql.getD "")
        else st.global_sql_cache,
      global_original_dataframe_cache :=
        match cacheLookup st.global_original_dataframe_cache message_ts with
        | some original_df =>
          cachePut st.global_original_dataframe_cache new_message_ts original_df
        | none => st.global_original_dataframe_cache }
    (st, [SlackAction.postMessage channel_id text result_blocks false])

/-! ### `display_agent_response`, SQL branch (from the row-count
dispatch at line 910; the preceding `pd.read_sql` and dtype coercion
are the provenance of `df` and preserve emptiness). -/

def display_agent_response_sql (st : BotState) (sql : String) (df : Frame)
    (channel_id message_ts : String) (preserved : Option Nat) :
    BotState × List SlackAction :=
  if df.nrows = 0 then
    let final_blocks := [Block.section noResultsText]
    let final_blocks2 := final_blocks ++
      [get_action_buttons_block true (some 0) false false none preserved]
    ({ st with
        global_dataframe_cache := cachePut st.global_dataframe_cache message_ts df,
        global_sql_cache := cachePut st.global_sql_cache message_ts sql,
        global_original_dataframe_cache :=
          cachePut st.global_original_dataframe_cache message_ts df },
     [SlackAction.postMessage channel_id "No results found" final_blocks false,
      SlackAction.chatUpdate channel_id message_ts "No results found" final_blocks2])
  else
    let data_block :=
      if df.nrows = 1 then
        let formatted_answer := String.join (List.zipWith
          (fun (c : String × Dtype) cell =>
            pyTitle (replaceChar c.1 '_' ' ') ++ ": " ++ Cell.render cell ++ "\n")
          df.cols (df.rows.getD 0 []))
        Block.richText
          [⟨"rich_text_section",
            [⟨"Here\x27s the specific information you requested:", true⟩], none⟩,
           ⟨"rich_text_preformatted", [⟨formatted_answer, false⟩], none⟩]
      else
        Block.richText
          [⟨"rich_text_quote", [⟨"Answer:", true⟩], none⟩,
           ⟨"rich_text_preformatted",
            [⟨(_get_safe_table_text df ""
                (some (pyOrNat preserved (min df.nrows 10)))).1, false⟩], none⟩]
    let display_limit := pyOrNat preserved df.nrows
    let final_blocks := [data_block,
      get_action_buttons_block true (some display_limit) true false none preserved]
    ({ st with
        global_sql_cache := cachePut st.global_sql_cache message_ts sql,
        global_dataframe_cache := cachePut st.global_dataframe_cache message_ts df,
        global_original_dataframe_cache :=
          cachePut st.global_original_dataframe_cache message_ts df },
     [SlackAction.postMessage channel_id "Your query results are ready."
        final_blocks false])

/-! ### Chains of filter-apply interactions -/

/-- Run a chain of filter-modal submissions: each step submits
`filter_values` against the previous message and Slack assigns the
given fresh timestamp to the posted result. -/
def runFilterChain (st : BotState) (channel_id : String) (parent : String) :
    List (String × FilterValues) → BotState × String
  | [] => (st, parent)
  | (new_ts, fv) :: rest =>
    let r := handle_filter_modal_submission st parent channel_id fv new_ts
    runFilterChain r.1 channel_id new_ts rest

/-! ## Theorems -/


theorem set_append_singleton {α : Type} (l : List α) (a b : α) :
    (l ++ [a]).set l.length b = l ++ [b] := by
  induction l with
  | nil => rfl
  | cons x t ih => simpa using ih

/-- C2: applying an empty filter specification (no dates, selections,
thresholds, sort key or top-N) through `apply_pandas_filters` returns the
DataFrame unchanged — same columns, rows, values and row order — together
with an empty list of applied-filter descriptions. -/
theorem C2_test (df : Frame) :
    apply_pandas_filters df [] = (df, []) := by
  simp [apply_pandas_filters, apply_pandas_filters_st, fvGet]
  split <;> simp

/-- The store-level pipeline always returns the input heap extended with
exactly one cell (the copy it worked on). -/
theorem apply_pandas_filters_st_heap (heap : List Frame) (dfRef : Nat)
    (fv : FilterValues) :
    ∃ c, (apply_pandas_filters_st heap dfRef fv).1 = heap ++ [c] := by
  unfold apply_pandas_filters_st
  simp only []
  split
  · exact ⟨_, rfl⟩
  · split
    · split
      · exact ⟨_, by rw [set_append_singleton]⟩
      · exact ⟨_, rfl⟩
    · exact ⟨_, rfl⟩

/-- C10: `apply_pandas_filters` never mutates its input.  Running the
store-level pipeline on any heap leaves every pre-existing cell — in
particular the input DataFrame at `dfRef` — exactly as it was: the pipeline
only appends the copy it works on. -/
theorem C10_test (heap : List Frame) (dfRef : Nat) (fv : FilterValues)
    (h : dfRef < heap.length) :
    ((apply_pandas_filters_st heap dfRef fv).1).take heap.length = heap ∧
    ((apply_pandas_filters_st heap dfRef fv).1).length = heap.length + 1 ∧
    ((apply_pandas_filters_st heap dfRef fv).1).getD dfRef default =
      heap.getD dfRef default := by
  obtain ⟨c, hc⟩ := apply_pandas_filters_st_heap heap dfRef fv
  rw [hc]
  refine ⟨List.take_left _ _, by simp, ?_⟩
  rw [List.getD_append _ _ _ _ h]

theorem C10_test_witness :
    (0 : Nat) < 1 ∧
    ((apply_pandas_filters_st [⟨[("ROLE", Dtype.obj)], [[Cell.str "CRO"]]⟩] 0
        [("role_select", FVal.opts ["Sales Rep"])]).1).take 1 =
      [⟨[("ROLE", Dtype.obj)], [[Cell.str "CRO"]]⟩] ∧
    ((apply_pandas_filters_st [⟨[("ROLE", Dtype.obj)], [[Cell.str "CRO"]]⟩] 0
        [("role_select", FVal.opts ["Sales Rep"])]).1).length = 2 ∧
    ((apply_pandas_filters_st [⟨[("ROLE", Dtype.obj)], [[Cell.str "CRO"]]⟩] 0
        [("role_select", FVal.opts ["Sales Rep"])]).1).getD 0 default =
      [⟨[("ROLE", Dtype.obj)], [[Cell.str "CRO"]]⟩].getD 0 default :=
  ⟨by decide,
   (C10_test [⟨[("ROLE", Dtype.obj)], [[Cell.str "CRO"]]⟩] 0
     [("role_select", FVal.opts ["Sales Rep"])] (by decide)).1,
   (C10_test [⟨[("ROLE", Dtype.obj)], [[Cell.str "CRO"]]⟩] 0
     [("role_select", FVal.opts ["Sales Rep"])] (by decide)).2.1,
   (C10_test [⟨[("ROLE", Dtype.obj)], [[Cell.str "CRO"]]⟩] 0
     [("role_select", FVal.opts ["Sales Rep"])] (by decide)).2.2⟩

/-- C9 counterexample: with the hardcoded user email in place, applying
`apply_entitlement_filter` to an already-rewritten query does not yield the
same string as a single application — the rewrite is not idempotent. -/
theorem C9_cx_test :
    apply_entitlement_filter (apply_entitlement_filter "SELECT 1") ≠
      apply_entitlement_filter "SELECT 1" := by decide

/-- C9 (amended): when no entitlement email is configured the rewrite is the
identity on every query (hence trivially idempotent and semantics
preserving); with the hardcoded email, however, the double application
differs from the single one already on the demo semantic-view query. -/
theorem C9_amended_test :
    (∀ sql_query : String, apply_entitlement_filter_email "" sql_query = sql_query) ∧
    apply_entitlement_filter (apply_entitlement_filter
        "SELECT * FROM SLACK_SALES_DEMO.SLACK_SCHEMA.SALES_SEMANTIC_VIEW") ≠
      apply_entitlement_filter
        "SELECT * FROM SLACK_SALES_DEMO.SLACK_SCHEMA.SALES_SEMANTIC_VIEW" :=
  ⟨fun _ => rfl, by decide⟩

theorem mem_insertSorted {α : Type} (le : α → α → Bool) (x a : α) (l : List α) :
    a ∈ insertSorted le x l ↔ a = x ∨ a ∈ l := by
  induction l with
  | nil => simp [insertSorted]
  | cons y t ih =>
    simp only [insertSorted]
    split <;> simp [ih] <;> tauto

theorem mem_pySorted {α : Type} (le : α → α → Bool) (a : α) (l : List α) :
    a ∈ pySorted le l ↔ a ∈ l := by
  suffices h : ∀ acc, a ∈ l.foldl (fun acc x => insertSorted le x acc) acc ↔
      a ∈ acc ∨ a ∈ l by
    simpa [pySorted] using h []
  induction l with
  | nil => simp
  | cons x t ih =>
    intro acc
    simp only [List.foldl_cons, ih, mem_insertSorted, List.mem_cons]
    tauto

theorem mem_dedupAux {α : Type} [DecidableEq α] (a : α) (l : List α) :
    ∀ seen, a ∈ dedupAux seen l ↔ a ∈ l ∧ a ∉ seen := by
  induction l with
  | nil => simp [dedupAux]
  | cons x t ih =>
    intro seen
    simp only [dedupAux]
    split
    · rename_i hx
      rw [ih]
      simp only [List.mem_cons]
      constructor
      · tauto
      · rintro ⟨rfl | hm, hs⟩
        · exact absurd hx hs
        · exact ⟨hm, hs⟩
    · rename_i hx
      simp only [List.mem_cons, ih, List.mem_cons, not_or]
      constructor
      · rintro (rfl | ⟨hm, hs⟩)
        · exact ⟨Or.inl rfl, hx⟩
        · exact ⟨Or.inr hm, hs.2⟩
      · rintro ⟨rfl | hm, hs⟩
        · exact Or.inl rfl
        · by_cases hax : a = x
          · exact Or.inl hax
          · exact Or.inr ⟨hm, hax, hs⟩

theorem mem_pyDedup {α : Type} [DecidableEq α] (a : α) (l : List α) :
    a ∈ pyDedup l ↔ a ∈ l := by
  simp [pyDedup, mem_dedupAux]

theorem mem_row_limit_sorted (v : Nat) (d : Option Nat) :
    v ∈ row_limit_sorted_values d ↔ v ∈ row_limit_valid_options d := by
  simp [row_limit_sorted_values, mem_pySorted, mem_pyDedup]

theorem filter_ne_nil_10 {n : Nat} (h10 : 10 ≤ n) :
    (10 : Nat) ∈ List.filter (fun x => decide (x ≤ n)) [10, 25, 50, 100, 200] := by
  simp [List.mem_filter, h10]

theorem mem_valid_char (v n : Nat) (h : 1 ≤ n)
    (hv : v ∈ row_limit_valid_options (some n)) :
    (v = 10 ∨ v = 25 ∨ v = 50 ∨ v = 100 ∨ v = 200 ∨ v = n) ∧ 1 ≤ v ∧ v ≤ n := by
  unfold row_limit_valid_options at hv
  simp only at hv
  split at hv
  case isTrue hemp =>
    have hn10 : n < 10 := by
      by_contra hh
      have hmem := filter_ne_nil_10 (n := n) (by omega)
      rw [hemp] at hmem
      simp at hmem
    split at hv <;>
      simp only [List.mem_append, List.mem_cons, List.not_mem_nil, or_false,
        List.mem_singleton] at hv <;> omega
  case isFalse hne =>
    split at hv
    case isTrue hcond =>
      split at hv <;>
        simp only [List.mem_append, List.mem_cons, List.not_mem_nil, or_false,
          List.mem_singleton, List.mem_filter, decide_eq_true_eq] at hv <;> omega
    case isFalse hcond =>
      split at hv <;>
        simp only [List.mem_append, List.mem_cons, List.not_mem_nil, or_false,
          List.mem_singleton, List.mem_filter, decide_eq_true_eq] at hv <;> omega

theorem not_mem_valid_above200 (n : Nat) (h200 : 200 < n)
    (hstd : ¬ (n = 10 ∨ n = 25 ∨ n = 50 ∨ n = 100 ∨ n = 200)) :
    n ∉ row_limit_valid_options (some n) := by
  intro hmem
  unfold row_limit_valid_options at hmem
  simp only at hmem
  split at hmem
  case isTrue hemp =>
    split at hmem
    case isTrue hguard => exact absurd hguard.2 (by omega)
    case isFalse hguard =>
      simp only [List.mem_singleton] at hmem
      omega
  case isFalse hne =>
    split at hmem
    case isTrue hcond =>
      split at hmem
      case isTrue hguard => exact absurd hguard.2 (by omega)
      case isFalse hguard =>
        simp only [List.mem_cons, List.mem_filter, List.not_mem_nil, or_false,
          decide_eq_true_eq] at hmem
        omega
    case isFalse hcond =>
      split at hmem
      case isTrue hguard => exact absurd hguard.2 (by omega)
      case isFalse hguard =>
        simp only [List.mem_cons, List.mem_filter, List.not_mem_nil, or_false,
          decide_eq_true_eq] at hmem
        omega

theorem ten_mem_sorted {n : Nat} (h10 : 10 ≤ n) :
    (10 : Nat) ∈ row_limit_sorted_values (some n) := by
  rw [mem_row_limit_sorted]
  unfold row_limit_valid_options
  simp only
  have hf := filter_ne_nil_10 (n := n) h10
  split
  · rename_i hemp
    rw [hemp] at hf
    simp at hf
  · split
    · split
      · rw [List.mem_append]
        left
        exact List.mem_cons_self _ _
      · exact List.mem_cons_self _ _
    · split
      · rw [List.mem_append]
        left
        exact hf
      · exact hf

theorem sorted_small {n : Nat} (h1 : 1 ≤ n) (h10 : n < 10) :
    row_limit_sorted_values (some n) = [n] := by
  have hemp : List.filter (fun x => decide (x ≤ n)) [10, 25, 50, 100, 200] = [] := by
    simp only [List.filter_eq_nil_iff, List.mem_cons, List.not_mem_nil, or_false,
      decide_eq_true_eq]
    rintro a (rfl | rfl | rfl | rfl | rfl) <;> omega
  have hmin : min 10 n = n := by omega
  unfold row_limit_sorted_values row_limit_valid_options
  simp only [hemp, if_pos rfl, hmin]
  rw [if_neg (by simp)]
  simp [pyDedup, dedupAux, pySorted, insertSorted]

theorem C4_initial (n : Nat) (h : 1 ≤ n) :
    (dropdownInitial (get_row_limit_dropdown_element (some n) none none)).value =
      (if 10 ≤ n then "10" else plainNat n) := by
  by_cases h10 : 10 ≤ n
  · rw [if_pos h10]
    have hmem := ten_mem_sorted (n := n) h10
    unfold get_row_limit_dropdown_element
    simp only
    have hdef : plainNat (pyOrNat none (pyOrNat none 10)) = "10" := by decide
    rw [hdef]
    set options := (row_limit_sorted_values (some n)).map fun v =>
      SelectOption.mk (plainNat v ++ " " ++ if v = 1 then "Row" else "Rows") (plainNat v)
      with hopt
    have hmemop : SelectOption.mk (plainNat 10 ++ " " ++ if (10 : Nat) = 1 then "Row" else "Rows")
        (plainNat 10) ∈ options := by
      rw [hopt]
      exact List.mem_map_of_mem _ hmem
    have hcontains : (options.map SelectOption.value).contains "10" = true := by
      have : ("10" : String) ∈ options.map SelectOption.value := by
        rw [List.mem_map]
        exact ⟨_, hmemop, by decide⟩
      exact List.elem_eq_true_of_mem this
    rw [if_pos hcontains]
    have hex : ∃ o ∈ options, (fun o => o.value = "10") o := by
      refine ⟨_, hmemop, by decide⟩
    have hsome : (options.find? fun o => decide (o.value = "10")).isSome := by
      rw [List.find?_isSome]
      obtain ⟨o, ho, hp⟩ := hex
      exact ⟨o, ho, by simp [hp]⟩
    obtain ⟨o, ho⟩ := Option.isSome_iff_exists.mp hsome
    have hval : o.value = "10" := by
      have := List.find?_some ho
      simpa using this
    simp only [ho, Option.getD_some]
    exact hval
  · rw [if_neg h10]
    have hs := sorted_small (n := n) h (by omega)
    have hne : plainNat n ≠ "10" := by
      interval_cases n <;> decide
    unfold get_row_limit_dropdown_element
    have hdef : plainNat (pyOrNat none (pyOrNat none 10)) = "10" := by decide
    simp [hs, hdef, List.find?, dropdownInitial, hne, Ne.symm hne]

theorem strlen_append (a b : String) : (a ++ b).length = a.length + b.length := by
  cases a
  cases b
  simp [String.length, String.append]

theorem strlen_mk (l : List Char) : (String.mk l).length = l.length := rfl

theorem strlen_data (s : String) : s.length = s.data.length := rfl

theorem pyTake_length (s : String) (k : Nat) :
    (pyTake s k).length = min k s.length := by
  rw [pyTake, strlen_mk, strlen_data]
  exact List.length_take _ _

theorem digitsRevAux_ne_nil (fuel m : Nat) : digitsRevAux fuel m ≠ [] := by
  cases fuel with
  | zero => simp [digitsRevAux]
  | succ f =>
    simp only [digitsRevAux]
    split <;> simp

theorem commaRev_length_ge (l : List Char) : ∀ i, l.length ≤ (commaRev l i).length := by
  induction l with
  | nil => simp [commaRev]
  | cons c t ih =>
    intro i
    simp only [commaRev]
    split
    · have := ih (i + 1)
      simp only [List.length_cons]
      omega
    · have := ih (i + 1)
      simp only [List.length_cons]
      omega

theorem commaNat_length_pos (n : Nat) : 1 ≤ (commaNat n).length := by
  have h1 := commaRev_length_ge (digitsRev n) 0
  have h2 : digitsRev n ≠ [] := digitsRevAux_ne_nil n n
  have h3 : 1 ≤ (digitsRev n).length := by
    cases hd : digitsRev n with
    | nil => exact absurd hd h2
    | cons x t => simp
  simp only [commaNat, strlen_mk, List.length_reverse]
  omega

theorem commaNat_length_one (m : Nat) (h : m ≤ 9) : (commaNat m).length = 1 := by
  interval_cases m <;> decide

theorem length_joinWith (sep : String) (l : List String) :
    (joinWith sep l).length = (l.map String.length).sum + sep.length * (l.length - 1) := by
  induction l with
  | nil => simp [joinWith]
  | cons x t ih =>
    cases t with
    | nil => simp [joinWith]
    | cons y t2 =>
      simp only [joinWith] at ih ⊢
      rw [strlen_append, strlen_append, ih]
      simp only [List.map_cons, List.sum_cons, List.length_cons, Nat.add_sub_cancel]
      rw [Nat.mul_add, Nat.mul_one]
      omega

theorem padLeft_length (w : Nat) (s : String) :
    (padLeft w s).length = max w s.length := by
  rw [padLeft, strlen_append, strlen_mk, List.length_replicate]
  omega

theorem zipWith_padLeft_lengths (ws : List Nat) (cs : List String) :
    (List.zipWith padLeft ws cs).map String.length =
      List.zipWith (fun w (c : String) => max w c.length) ws cs := by
  induction ws generalizing cs with
  | nil => simp
  | cons w wt ih =>
    cases cs with
    | nil => simp
    | cons c ct => simp [padLeft_length, ih]

theorem lineOf_length (ws : List Nat) (cs : List String) :
    (lineOf ws cs).length =
      (List.zipWith (fun w (c : String) => max w c.length) ws cs).sum +
        (min ws.length cs.length - 1) := by
  rw [lineOf, length_joinWith, zipWith_padLeft_lengths]
  have h1 : (" " : String).length = 1 := rfl
  rw [h1, one_mul, List.length_zipWith]

theorem zip_max_sum_mono {ws ws' : List Nat}
    (h : List.Forall₂ (· ≤ ·) ws ws') (cs : List String) :
    (List.zipWith (fun w (c : String) => max w c.length) ws cs).sum ≤
      (List.zipWith (fun w (c : String) => max w c.length) ws' cs).sum := by
  induction h generalizing cs with
  | nil => simp
  | cons hx hrest ih =>
    cases cs with
    | nil => simp
    | cons c ct =>
      simp only [List.zipWith_cons_cons, List.sum_cons]
      have := ih ct
      have hmax : max _ c.length ≤ max _ c.length := max_le_max hx (le_refl c.length)
      omega

theorem lineOf_length_mono {ws ws' : List Nat}
    (h : List.Forall₂ (· ≤ ·) ws ws') (cs : List String) :
    (lineOf ws cs).length ≤ (lineOf ws' cs).length := by
  rw [lineOf_length, lineOf_length, h.length_eq]
  have := zip_max_sum_mono h cs
  omega

theorem foldr_max_append (xs zs : List Nat) :
    (xs ++ zs).foldr max 0 = max (xs.foldr max 0) (zs.foldr max 0) := by
  induction xs with
  | nil => simp
  | cons x t ih => simp [ih, Nat.max_assoc]

theorem foldr_max_mono_prefix {xs ys : List Nat} (h : xs <+: ys) :
    xs.foldr max 0 ≤ ys.foldr max 0 := by
  obtain ⟨zs, rfl⟩ := h
  rw [foldr_max_append]
  exact Nat.le_max_left _ _

theorem colWidths_mono (names : List String) {r1 r2 : List (List String)}
    (h : r1 <+: r2) :
    List.Forall₂ (· ≤ ·) (colWidths names r1) (colWidths names r2) := by
  unfold colWidths
  rw [List.forall₂_map_right_iff, List.forall₂_map_left_iff]
  apply List.forall₂_same.mpr
  intro ⟨j, hname⟩ hmem
  simp only
  refine max_le_max (le_refl _) ?_
  apply foldr_max_mono_prefix
  exact (h.map _)

theorem sum_map_prefix {α : Type} (f : α → Nat) {xs ys : List α} (h : xs <+: ys) :
    (xs.map f).sum ≤ (ys.map f).sum := by
  obtain ⟨zs, rfl⟩ := h
  simp [List.sum_append]

theorem toDisplayString_head_mono (g : Frame) {k l : Nat} (hkl : k ≤ l) :
    (Frame.toDisplayString (g.head k)).length ≤
      (Frame.toDisplayString (g.head l)).length := by
  unfold Frame.toDisplayString
  simp only [Frame.head, Frame.colNames, List.map_take]
  set R := g.rows.map (fun r => r.map Cell.render) with hR
  set N := g.cols.map Prod.fst with hN
  have hpre : R.take k <+: R.take l := by
    have h1 : (R.take l).take k = R.take k := by
      rw [List.take_take, min_eq_left hkl]
    rw [← h1]
    exact List.take_prefix k (R.take l)
  have hws := colWidths_mono N hpre
  rw [length_joinWith, length_joinWith]
  simp only [List.map_cons, List.sum_cons, List.length_cons, ← List.map_take,
    List.map_map, List.length_map]
  have hnl : ("\n" : String).length = 1 := rfl
  rw [hnl, one_mul, one_mul]
  have hheader := lineOf_length_mono hws N
  have hrows1 : ((R.take k).map (String.length ∘ lineOf (colWidths N (R.take k)))).sum ≤
      ((R.take k).map (String.length ∘ lineOf (colWidths N (R.take l)))).sum := by
    apply List.sum_le_sum
    intro r hr
    exact lineOf_length_mono hws r
  have hrows2 : ((R.take k).map (String.length ∘ lineOf (colWidths N (R.take l)))).sum ≤
      ((R.take l).map (String.length ∘ lineOf (colWidths N (R.take l)))).sum :=
    sum_map_prefix _ hpre
  have hcount : (R.take k).length ≤ (R.take l).length := by
    rw [List.length_take, List.length_take]
    omega
  omega

theorem format_head (df : Frame) (k : Nat) :
    _format_dataframe_for_display (df.head k) =
      (_format_dataframe_for_display df).head k := by
  simp [_format_dataframe_for_display, Frame.head, List.map_take]

theorem renderAt_mono (df : Frame) {k l : Nat} (hkl : k ≤ l) :
    (renderAt df k).length ≤ (renderAt df l).length := by
  unfold renderAt
  rw [format_head, format_head]
  exact toDisplayString_head_mono _ hkl

theorem tryFallbacks_sound (df : Frame) (tm : String) (r n : Nat) :
    ∀ (l : List Nat) (t : String) (k : Nat),
      tryFallbacks df tm r n l = some (t, k) → t.length ≤ 2800 ∧ k < r := by
  intro l
  induction l with
  | nil =>
    intro t k h
    simp [tryFallbacks] at h
  | cons fb rest ih =>
    intro t k h
    simp only [tryFallbacks] at h
    split at h
    · exact ih t k h
    · split at h
      · rename_i hge hlen
        simp only [Option.some.injEq, Prod.mk.injEq] at h
        obtain ⟨rfl, rfl⟩ := h
        exact ⟨hlen, by omega⟩
      · exact ih t k h

theorem safeLoopAux_sound (df : Frame) (tm : String) (n : Nat) :
    ∀ (fuel s : Nat) (t : String) (k : Nat),
      safeLoopAux df tm n fuel s = some (t, k) →
      t = renderAt df k ++ tm ++ rowMsgReduced k n ∧ t.length ≤ 2800 ∧
        k ≤ s ∧ 3 < k := by
  intro fuel
  induction fuel with
  | zero =>
    intro s t k h
    simp [safeLoopAux] at h
  | succ f ih =>
    intro s t k h
    simp only [safeLoopAux] at h
    split at h
    · split at h
      · rename_i hgt hlen
        simp only [Option.some.injEq, Prod.mk.injEq] at h
        obtain ⟨rfl, rfl⟩ := h
        exact ⟨rfl, hlen, le_refl _, hgt⟩
      · obtain ⟨h1, h2, h3, h4⟩ := ih (s - 2) t k h
        exact ⟨h1, h2, by omega, h4⟩
    · simp at h

theorem lastResort_le (df : Frame) : (lastResort df).1.length ≤ 2800 := by
  unfold lastResort
  simp only
  have h62 : truncNote.length = 62 := by decide
  split
  · rw [strlen_append, strlen_append, pyTake_length]
    have h3 : ("..." : String).length = 3 := rfl
    omega
  · rename_i hle
    rw [strlen_append]
    omega

theorem rowMsgDropdown_length (mr n : Nat) :
    (rowMsgDropdown mr n).length =
      11 + (commaNat mr).length + 4 + (commaNat n).length + 33 := by
  unfold rowMsgDropdown
  rw [strlen_append, strlen_append, strlen_append, strlen_append]
  have h1 : ("\n\n(Showing " : String).length = 11 := rfl
  have h2 : (" of " : String).length = 4 := rfl
  have h3 : (" rows. Use dropdown to see more.)" : String).length = 33 := rfl
  omega

theorem rowMsgReduced_length (k n : Nat) :
    (rowMsgReduced k n).length =
      11 + (commaNat k).length + 4 + (commaNat n).length + 42 := by
  unfold rowMsgReduced
  rw [strlen_append, strlen_append, strlen_append, strlen_append]
  have h1 : ("\n\n(Showing " : String).length = 11 := rfl
  have h2 : (" of " : String).length = 4 := rfl
  have h3 : (" rows - reduced due to Slack size limits.)" : String).length = 42 := rfl
  omega

theorem dropdown_le_reduced (mr k n : Nat) (hmr : mr ≤ 9) :
    (rowMsgDropdown mr n).length ≤ (rowMsgReduced k n).length := by
  rw [rowMsgDropdown_length, rowMsgReduced_length, commaNat_length_one mr hmr]
  have := commaNat_length_pos k
  omega

set_option maxHeartbeats 1000000 in
/-- C3 (amended): for every DataFrame and requested row count, the text
returned by `_get_safe_table_text` is at most 2,800 characters; the
actual-rows-shown count is at most `max requested 3` — the fallback ladder
bottoms out at three rows, so it can exceed a smaller requested count. -/
theorem C3_amended_test (df : Frame) (tm : String) (r : Nat) :
    (_get_safe_table_text df tm (some r)).1.length ≤ 2800 ∧
    (_get_safe_table_text df tm (some r)).2 ≤ max r 3 := by
  unfold _get_safe_table_text
  simp only
  split
  case isTrue hlt =>
    split
    case isTrue hfull =>
      exact ⟨hfull, le_trans (min_le_right _ _) (le_max_left _ _)⟩
    case isFalse hfull =>
      split
      case h_1 res heq =>
        split at heq
        · obtain ⟨t, k⟩ := res
          obtain ⟨h1, h2⟩ := tryFallbacks_sound df tm r df.nrows _ t k heq
          exact ⟨h1, le_trans (le_of_lt h2) (le_max_left _ _)⟩
        · simp at heq
      case h_2 hnofb =>
        split
        case h_1 res heq =>
          obtain ⟨t, k⟩ := res
          obtain ⟨ht, hlen, hks, hk3⟩ := safeLoopAux_sound df tm df.nrows 10 10 t k heq
          refine ⟨hlen, ?_⟩
          by_contra hgt
          push_neg at hgt
          have hrk : r < k := by omega
          have hmrk : min df.nrows r ≤ k := by omega
          have hmono := renderAt_mono df hmrk
          have hmr9 : min df.nrows r ≤ 9 := by omega
          subst ht
          rw [strlen_append, strlen_append] at hlen
          rw [strlen_append, strlen_append] at hfull
          have hdd := dropdown_le_reduced (min df.nrows r) k df.nrows hmr9
          omega
        case h_2 =>
          exact ⟨lastResort_le df, by simp [lastResort]⟩
  case isFalse hnlt =>
    split
    case isTrue hfull =>
      exact ⟨hfull, le_trans (min_le_right _ _) (le_max_left _ _)⟩
    case isFalse hfull =>
      split
      case h_1 res heq =>
        split at heq
        · obtain ⟨t, k⟩ := res
          obtain ⟨h1, h2⟩ := tryFallbacks_sound df tm r df.nrows _ t k heq
          exact ⟨h1, le_trans (le_of_lt h2) (le_max_left _ _)⟩
        · simp at heq
      case h_2 hnofb =>
        split
        case h_1 res heq =>
          obtain ⟨t, k⟩ := res
          obtain ⟨ht, hlen, hks, hk3⟩ := safeLoopAux_sound df tm df.nrows 10 10 t k heq
          refine ⟨hlen, ?_⟩
          by_contra hgt
          push_neg at hgt
          have hrk : r < k := by omega
          have hmrk : min df.nrows r ≤ k := by omega
          have hmono := renderAt_mono df hmrk
          subst ht
          rw [strlen_append, strlen_append] at hlen
          rw [strlen_append, strlen_append] at hfull
          have hempty : ("" : String).length = 0 := rfl
          omega
        case h_2 =>
          exact ⟨lastResort_le df, by simp [lastResort]⟩

theorem wide_render_len (k : Nat) (hk : 1 ≤ k) :
    (renderAt wideFrame k).length = 2801 := by
  have hbig : (String.mk (List.replicate 1400 'a')).length = 1400 := by
    rw [strlen_mk, List.length_replicate]
  cases k with
  | zero => omega
  | succ k2 =>
    have hcell : (if Dtype.obj = Dtype.num then
        formatNumCell (isCurrencyCol "A") (Cell.str (String.mk (List.replicate 1400 'a')))
      else Cell.str (String.mk (List.replicate 1400 'a'))) =
        Cell.str (String.mk (List.replicate 1400 'a')) := rfl
    unfold renderAt wideFrame Frame.head _format_dataframe_for_display
      Frame.toDisplayString
    simp only [Frame.colNames, List.map_cons, List.map_nil, List.take_succ_cons,
      List.take_nil, List.zipWith_cons_cons, List.zipWith_nil_right,
      List.zipWith_nil_left]
    simp only [hcell]
    norm_num [colWidths, List.enum, List.enumFrom, Cell.render, joinWith, lineOf,
      padLeft_length, strlen_append, hbig]
    have hA : ("A" : String).length = 1 := rfl
    have hnl : ("\n" : String).length = 1 := rfl
    rw [hA, hnl]
    omega

theorem wide_safe_none : ∀ fuel s, safeLoopAux wideFrame "" 1 fuel s = none := by
  intro fuel
  induction fuel with
  | zero => intro s; rfl
  | succ f ih =>
    intro s
    rw [safeLoopAux]
    by_cases h3 : s > 3
    · rw [if_pos h3]
      have hlen : (renderAt wideFrame s ++ "" ++ rowMsgReduced s 1).length > 2800 := by
        rw [strlen_append, strlen_append, wide_render_len s (by omega),
          rowMsgReduced_length]
        have := commaNat_length_pos s
        have := commaNat_length_pos 1
        simp only [strlen_data]
        omega
      rw [if_neg (by omega)]
      exact ih (s - 2)
    · rw [if_neg h3]

theorem gstt_eq_lastResort (df : Frame) (tm : String) (r : Nat)
    (hbase : ∀ k, 1 ≤ k → 2800 < (renderAt df k).length)
    (hr : r ≤ 25) (hr1 : 1 ≤ r) (hn : 1 ≤ df.nrows)
    (hsl : safeLoop df tm df.nrows 10 = none) :
    _get_safe_table_text df tm (some r) = lastResort df := by
  have hminpos : 1 ≤ min df.nrows r := by omega
  unfold _get_safe_table_text
  simp only
  split <;>
  · split
    case isTrue hcond =>
      exfalso
      rw [strlen_append, strlen_append] at hcond
      have := hbase (min df.nrows r) hminpos
      omega
    case isFalse hcond =>
      rw [if_neg (by omega : ¬ r > 25)]
      split
      case h_1 res heq => exact Option.noConfusion heq
      case h_2 =>
        split
        case h_1 res heq => rw [hsl] at heq; exact Option.noConfusion heq
        case h_2 => rfl

theorem wide_result_eq :
    _get_safe_table_text wideFrame "" (some 1) = lastResort wideFrame := by
  apply gstt_eq_lastResort
  · intro k hk
    rw [wide_render_len k hk]
    omega
  · omega
  · omega
  · exact le_refl 1
  · rw [safeLoop]
    exact wide_safe_none 10 10

/-- C3 counterexample: on a one-row, one-column frame whose single value is
1,400 characters wide, requesting 1 row makes `_get_safe_table_text` report
3 rows shown — more than the requested row count. -/
theorem C3_cx_test :
    (_get_safe_table_text wideFrame "" (some 1)).2 = 3 ∧
    ¬ ((_get_safe_table_text wideFrame "" (some 1)).2 ≤ 1) := by
  rw [wide_result_eq]
  exact ⟨rfl, by decide⟩

/-- C5: `_format_dataframe_for_display` formats numeric currency-keyword
columns with a dollar prefix, thousands separators and zero decimals
(TOTAL_SALES: 1234567 renders as $1,234,567) and other numeric columns
plainly (42 as 42, 3.5 as 3.50, 999 as 999, 1000 as 1,000). -/
theorem C5_test :
    (∀ (name : String) (q : Rat), isCurrencyCol name = true →
      _format_dataframe_for_display ⟨[(name, Dtype.num)], [[Cell.num q]]⟩ =
        ⟨[(name, Dtype.obj)], [[Cell.str (fmtCurrency q)]]⟩) ∧
    isCurrencyCol "TOTAL_SALES" = true ∧
    fmtCurrency 1234567 = "$1,234,567" ∧
    (∀ (name : String) (q : Rat), isCurrencyCol name = false →
      _format_dataframe_for_display ⟨[(name, Dtype.num)], [[Cell.num q]]⟩ =
        ⟨[(name, Dtype.obj)], [[Cell.str (fmtRegular q)]]⟩) ∧
    isCurrencyCol "COUNT" = false ∧
    fmtRegular 42 = "42" ∧
    fmtRegular (7 / 2 : Rat) = "3.50" ∧
    fmtRegular 999 = "999" ∧
    fmtRegular 1000 = "1,000" := by
  refine ⟨?_, by decide, of_decide_eq_true (by with_unfolding_all rfl), ?_,
    by decide, of_decide_eq_true (by with_unfolding_all rfl),
    of_decide_eq_true (by with_unfolding_all rfl),
    of_decide_eq_true (by with_unfolding_all rfl),
    of_decide_eq_true (by with_unfolding_all rfl)⟩
  · intro name q h
    simp [_format_dataframe_for_display, formatNumCell, h]
  · intro name q h
    simp [_format_dataframe_for_display, formatNumCell, h]

theorem C5_test_witness :
    isCurrencyCol "TOTAL_SALES" = true ∧
    _format_dataframe_for_display ⟨[("TOTAL_SALES", Dtype.num)], [[Cell.num 1234567]]⟩ =
      ⟨[("TOTAL_SALES", Dtype.obj)], [[Cell.str (fmtCurrency 1234567)]]⟩ :=
  ⟨by decide, C5_test.1 "TOTAL_SALES" 1234567 (by decide)⟩

theorem cacheLookup_put_self {α : Type} (l : List (String × α)) (k : String) (v : α) :
    cacheLookup (cachePut l k v) k = some v := by
  simp [cacheLookup, cachePut]

/-- C8 exhibits the Show-SQL bug: clicking Show SQL on a message whose
blocks already contain the SQL block does not send the ephemeral
already-displayed notice — the handler edits the message and appends a
second copy of the SQL block, because the already-displayed check reads a
top-level text key the rich-text block does not carry. -/
theorem C8_test :
    handle_show_sql_query ⟨[("m1", "SELECT 1")], [], [], []⟩ "m1" "C1"
        [get_sql_code_block "SELECT 1", get_action_buttons_block false none] =
      [SlackAction.chatUpdate "C1" "m1" "Your query results and SQL."
        [get_sql_code_block "SELECT 1", get_sql_code_block "SELECT 1",
         get_action_buttons_block false none]] := by decide

/-- C7: on a successful query with zero rows the bot posts a normal message
saying there were no results (possibly a permissions issue), attaches the
action controls without the row-limit dropdown but with a Show SQL button,
caches the empty DataFrame and the SQL under the message id, and a
subsequent Show SQL click resolves to the cached SQL. -/
theorem C7_test (st : BotState) (sql : String) (df : Frame) (ch ts : String)
    (hdf : df.nrows = 0) (hsql : sql ≠ "") :
    (display_agent_response_sql st sql df ch ts none).2 =
      [SlackAction.postMessage ch "No results found" [Block.section noResultsText] false,
       SlackAction.chatUpdate ch ts "No results found"
         [Block.section noResultsText,
          get_action_buttons_block true (some 0) false false none none]] ∧
    get_action_buttons_block true (some 0) false false none none =
      Block.actions [get_show_sql_query_button_element, get_filter_data_button_element,
        get_render_chart_button_element, get_download_data_button_element] ∧
    cacheLookup (display_agent_response_sql st sql df ch ts none).1.global_dataframe_cache
      ts = some df ∧
    cacheLookup (display_agent_response_sql st sql df ch ts none).1.global_sql_cache
      ts = some sql ∧
    cacheLookup
      (display_agent_response_sql st sql df ch ts none).1.global_original_dataframe_cache
      ts = some df ∧
    handle_show_sql_query (display_agent_response_sql st sql df ch ts none).1 ts ch
        [Block.section noResultsText,
         get_action_buttons_block true (some 0) false false none none] =
      [SlackAction.chatUpdate ch ts "Your query results and SQL."
        [Block.section noResultsText, get_sql_code_block sql,
         get_action_buttons_block false none]] := by
  refine ⟨?_, by decide, ?_, ?_, ?_, ?_⟩
  · simp [display_agent_response_sql, hdf]
  · simp [display_agent_response_sql, hdf, cacheLookup_put_self]
  · simp [display_agent_response_sql, hdf, cacheLookup_put_self]
  · simp [display_agent_response_sql, hdf, cacheLookup_put_self]
  · simp only [display_agent_response_sql, hdf, if_pos]
    simp only [handle_show_sql_query]
    simp [cacheLookup_put_self, pyTruthyStr, hsql, isTrackedActionsBlock,
      isSqlShownBlock, get_action_buttons_block, sqlHandlerActionIds,
      ActionEl.actionIdOf, get_show_sql_query_button_element,
      get_filter_data_button_element, get_render_chart_button_element,
      get_download_data_button_element, SQL_SHOW_BUTTON_ACTION_ID,
      noResultsText]

theorem C7_test_witness :
    (⟨[("COL", Dtype.num)], []⟩ : Frame).nrows = 0 ∧ ("SELECT 1" : String) ≠ "" ∧
    ((display_agent_response_sql ⟨[], [], [], []⟩ "SELECT 1"
        ⟨[("COL", Dtype.num)], []⟩ "C" "T" none).2 =
      [SlackAction.postMessage "C" "No results found" [Block.section noResultsText] false,
       SlackAction.chatUpdate "C" "T" "No results found"
         [Block.section noResultsText,
          get_action_buttons_block true (some 0) false false none none]] ∧
    get_action_buttons_block true (some 0) false false none none =
      Block.actions [get_show_sql_query_button_element, get_filter_data_button_element,
        get_render_chart_button_element, get_download_data_button_element] ∧
    cacheLookup (display_agent_response_sql ⟨[], [], [], []⟩ "SELECT 1"
        ⟨[("COL", Dtype.num)], []⟩ "C" "T" none).1.global_dataframe_cache "T" =
      some ⟨[("COL", Dtype.num)], []⟩ ∧
    cacheLookup (display_agent_response_sql ⟨[], [], [], []⟩ "SELECT 1"
        ⟨[("COL", Dtype.num)], []⟩ "C" "T" none).1.global_sql_cache "T" =
      some "SELECT 1" ∧
    cacheLookup (display_agent_response_sql ⟨[], [], [], []⟩ "SELECT 1"
        ⟨[("COL", Dtype.num)], []⟩ "C" "T" none).1.global_original_dataframe_cache "T" =
      some ⟨[("COL", Dtype.num)], []⟩ ∧
    handle_show_sql_query (display_agent_response_sql ⟨[], [], [], []⟩ "SELECT 1"
        ⟨[("COL", Dtype.num)], []⟩ "C" "T" none).1 "T" "C"
        [Block.section noResultsText,
         get_action_buttons_block true (some 0) false false none none] =
      [SlackAction.chatUpdate "C" "T" "Your query results and SQL."
        [Block.section noResultsText, get_sql_code_block "SELECT 1",
         get_action_buttons_block false none]]) :=
  ⟨by decide, by decide,
   C7_test ⟨[], [], [], []⟩ "SELECT 1" ⟨[("COL", Dtype.num)], []⟩ "C" "T"
     (by decide) (by decide)⟩

/-- C4: for every dataset size n, n at least 1, every option offered by the
row-limit dropdown is one of 10, 25, 50, 100, 200 or n and lies in [1, n],
and the default selection is 10 whenever 10 fits, else n. -/
theorem C4_test (n : Nat) (h : 1 ≤ n) :
    (∀ o ∈ dropdownOptions (get_row_limit_dropdown_element (some n) none none),
      ∃ v, o.value = plainNat v ∧
        (v = 10 ∨ v = 25 ∨ v = 50 ∨ v = 100 ∨ v = 200 ∨ v = n) ∧ 1 ≤ v ∧ v ≤ n) ∧
    (dropdownInitial (get_row_limit_dropdown_element (some n) none none)).value =
      (if 10 ≤ n then "10" else plainNat n) := by
  refine ⟨?_, C4_initial n h⟩
  intro o ho
  simp only [get_row_limit_dropdown_element, dropdownOptions, List.mem_map] at ho
  obtain ⟨v, hv, rfl⟩ := ho
  rw [mem_row_limit_sorted] at hv
  exact ⟨v, rfl, mem_valid_char v n h hv⟩

theorem C4_test_witness :
    1 ≤ 15 ∧
    ((∀ o ∈ dropdownOptions (get_row_limit_dropdown_element (some 15) none none),
      ∃ v, o.value = plainNat v ∧
        (v = 10 ∨ v = 25 ∨ v = 50 ∨ v = 100 ∨ v = 200 ∨ v = 15) ∧ 1 ≤ v ∧ v ≤ 15) ∧
    (dropdownInitial (get_row_limit_dropdown_element (some 15) none none)).value =
      (if 10 ≤ 15 then "10" else plainNat 15)) :=
  ⟨by decide, C4_test 15 (by decide)⟩

/-- C6: on a cache miss every interaction handler — row-limit change,
filter-dialog open, filter-modal submission (the first-registered listener,
the one Bolt dispatches the view submission to), clear filters, chart
render and download — returns without raising and posts a user-visible
message telling the user the query data is no longer available and to run
the query again; the miss is never fatal and never silently swallowed. -/
theorem C6_test (st : BotState)
    (ts ch nts ats dts fn : String) (fv : FilterValues) (lim : Nat)
    (es : String → Except String Frame) (b1 b2 b3 : Bool) (blocks : List Block)
    (hdf : cacheLookup st.global_dataframe_cache ts = none)
    (hsql : cacheLookup st.global_sql_cache ts = none)
    (horig : cacheLookup st.global_original_dataframe_cache ts = none) :
    handle_row_limit_change st ts ch lim blocks es =
      [SlackAction.postMessage ch
        "Sorry, the query data is no longer available. Please run your query again."
        [] true] ∧
    handle_filter_data_button_click st ts ch =
      [SlackAction.postMessage ch
        ("Sorry, I couldn\x27t retrieve the original data for filtering. " ++
         "The query might have expired or been cleared.") [] false] ∧
    handle_filter_modal_submission_v1 st ts ch fv nts =
      (st, [SlackAction.postMessage ch
        ("Sorry, I couldn\x27t retrieve the data for filtering. " ++
         "The query might have expired or been cleared.") [] true]) ∧
    handle_clear_all_filters_button_click st ts ch nts =
      (st, [SlackAction.postMessage ch
        ("Sorry, I couldn\x27t retrieve the original data. " ++
         "The query might have expired or been cleared.") [] false]) ∧
    handle_render_chart_button_click st ts ch ats b1 b2 b3 =
      (st, [SlackAction.postMessage ch
        ("Sorry, I couldn\x27t retrieve the data for AI charting. " ++
         "The query might have expired or been cleared.") [] false]) ∧
    handle_download_data_button_click st ts ch dts fn es b1 =
      (st, [SlackAction.postMessage ch
        ("Sorry, I couldn\x27t retrieve the data for download. " ++
         "The query might have expired or been cleared.") [] false]) := by
  refine ⟨?_, ?_, ?_, ?_, ?_, ?_⟩
  · simp [handle_row_limit_change, hdf, hsql, pyTruthyStr]
  · simp [handle_filter_data_button_click, horig]
  · simp [handle_filter_modal_submission_v1, horig]
  · simp [handle_clear_all_filters_button_click, horig]
  · simp [handle_render_chart_button_click, hsql, pyTruthyStr]
  · simp [handle_download_data_button_click, hsql, pyTruthyStr]

theorem C6_test_witness :
    cacheLookup (BotState.mk [] [] [] []).global_dataframe_cache "t" = none ∧
    cacheLookup (BotState.mk [] [] [] []).global_sql_cache "t" = none ∧
    cacheLookup (BotState.mk [] [] [] []).global_original_dataframe_cache "t" = none ∧
    (handle_row_limit_change ⟨[], [], [], []⟩ "t" "C" 10 []
        (fun _ => Except.error "down") =
      [SlackAction.postMessage "C"
        "Sorry, the query data is no longer available. Please run your query again."
        [] true] ∧
    handle_filter_data_button_click ⟨[], [], [], []⟩ "t" "C" =
      [SlackAction.postMessage "C"
        ("Sorry, I couldn\x27t retrieve the original data for filtering. " ++
         "The query might have expired or been cleared.") [] false] ∧
    handle_filter_modal_submission_v1 ⟨[], [], [], []⟩ "t" "C" [] "n" =
      (⟨[], [], [], []⟩, [SlackAction.postMessage "C"
        ("Sorry, I couldn\x27t retrieve the data for filtering. " ++
         "The query might have expired or been cleared.") [] true]) ∧
    handle_clear_all_filters_button_click ⟨[], [], [], []⟩ "t" "C" "n" =
      (⟨[], [], [], []⟩, [SlackAction.postMessage "C"
        ("Sorry, I couldn\x27t retrieve the original data. " ++
         "The query might have expired or been cleared.") [] false]) ∧
    handle_render_chart_button_click ⟨[], [], [], []⟩ "t" "C" "a" true true true =
      (⟨[], [], [], []⟩, [SlackAction.postMessage "C"
        ("Sorry, I couldn\x27t retrieve the data for AI charting. " ++
         "The query might have expired or been cleared.") [] false]) ∧
    handle_download_data_button_click ⟨[], [], [], []⟩ "t" "C" "d" "f.csv"
        (fun _ => Except.error "down") true =
      (⟨[], [], [], []⟩, [SlackAction.postMessage "C"
        ("Sorry, I couldn\x27t retrieve the data for download. " ++
         "The query might have expired or been cleared.") [] false])) :=
  ⟨rfl, rfl, rfl,
   C6_test ⟨[], [], [], []⟩ "t" "C" "n" "a" "d" "f.csv" [] 10
     (fun _ => Except.error "down") true true true [] rfl rfl rfl⟩

/-- Chain invariant: each filter-modal submission copies the parent message
original DataFrame and SQL to the new message id, so both survive any chain
of submissions. -/
theorem runFilterChain_inv (ch : String) (O : Frame) (s : String) (hs : s ≠ "") :
    ∀ (steps : List (String × FilterValues)) (st : BotState) (parent : String),
      cacheLookup st.global_original_dataframe_cache parent = some O →
      cacheLookup st.global_sql_cache parent = some s →
      cacheLookup (runFilterChain st ch parent steps).1.global_original_dataframe_cache
          (runFilterChain st ch parent steps).2 = some O ∧
      cacheLookup (runFilterChain st ch parent steps).1.global_sql_cache
          (runFilterChain st ch parent steps).2 = some s := by
  intro steps
  induction steps with
  | nil =>
    intro st parent horig hsql
    exact ⟨horig, hsql⟩
  | cons p rest ih =>
    obtain ⟨nts, fv⟩ := p
    intro st parent horig hsql
    simp only [runFilterChain]
    apply ih
    · simp only [handle_filter_modal_submission, horig, hsql]
      simp [cacheLookup_put_self]
    · simp only [handle_filter_modal_submission, horig, hsql]
      simp [pyTruthyStr, hs, cacheLookup_put_self]

/-- C1: after any chain of filter submissions rooted at a message whose
original DataFrame O and SQL are cached, clearing filters on the last
derived message posts the message built from O with no applied filters and
the full row count — the true original, all rows in original order — and
re-caches O (as current and original frame), the ancestral SQL and the
empty filter list under the new message id: filters never compound,
regardless of chain length. -/
theorem C1_test (st : BotState) (ch M clearTs : String) (O : Frame) (s : String)
    (steps : List (String × FilterValues))
    (horig : cacheLookup st.global_original_dataframe_cache M = some O)
    (hsql : cacheLookup st.global_sql_cache M = some s) (hs : s ≠ "") :
    (handle_clear_all_filters_button_click (runFilterChain st ch M steps).1
        (runFilterChain st ch M steps).2 ch clearTs).2 =
      [SlackAction.postMessage ch
        "Here are your original results (all filters cleared):"
        (create_filtered_result_message O [] O.nrows) false] ∧
    cacheLookup (handle_clear_all_filters_button_click (runFilterChain st ch M steps).1
        (runFilterChain st ch M steps).2 ch clearTs).1.global_original_dataframe_cache
      clearTs = some O ∧
    cacheLookup (handle_clear_all_filters_button_click (runFilterChain st ch M steps).1
        (runFilterChain st ch M steps).2 ch clearTs).1.global_dataframe_cache
      clearTs = some O ∧
    cacheLookup (handle_clear_all_filters_button_click (runFilterChain st ch M steps).1
        (runFilterChain st ch M steps).2 ch clearTs).1.global_sql_cache
      clearTs = some s ∧
    cacheLookup (handle_clear_all_filters_button_click (runFilterChain st ch M steps).1
        (runFilterChain st ch M steps).2 ch clearTs).1.global_current_filters_cache
      clearTs = some [] := by
  obtain ⟨hO, hS⟩ := runFilterChain_inv ch O s hs steps st M horig hsql
  refine ⟨?_, ?_, ?_, ?_, ?_⟩ <;>
    simp only [handle_clear_all_filters_button_click, hO, hS] <;>
    simp [pyTruthyStr, hs, cacheLookup_put_self]

theorem C1_test_witness :
    cacheLookup (BotState.mk [("M", "SELECT 1")] [("M", Frame.mk [("A", Dtype.obj)]
        [[Cell.str "x"], [Cell.str "y"]])] [("M", Frame.mk [("A", Dtype.obj)]
        [[Cell.str "x"], [Cell.str "y"]])] []).global_original_dataframe_cache "M" =
      some (Frame.mk [("A", Dtype.obj)] [[Cell.str "x"], [Cell.str "y"]]) ∧
    cacheLookup (BotState.mk [("M", "SELECT 1")] [("M", Frame.mk [("A", Dtype.obj)]
        [[Cell.str "x"], [Cell.str "y"]])] [("M", Frame.mk [("A", Dtype.obj)]
        [[Cell.str "x"], [Cell.str "y"]])] []).global_sql_cache "M" = some "SELECT 1" ∧
    ("SELECT 1" : String) ≠ "" ∧
    ((handle_clear_all_filters_button_click
        (runFilterChain (BotState.mk [("M", "SELECT 1")] [("M", Frame.mk
          [("A", Dtype.obj)] [[Cell.str "x"], [Cell.str "y"]])] [("M", Frame.mk
          [("A", Dtype.obj)] [[Cell.str "x"], [Cell.str "y"]])] []) "C" "M"
          [("M1", []), ("M2", [])]).1
        (runFilterChain (BotState.mk [("M", "SELECT 1")] [("M", Frame.mk
          [("A", Dtype.obj)] [[Cell.str "x"], [Cell.str "y"]])] [("M", Frame.mk
          [("A", Dtype.obj)] [[Cell.str "x"], [Cell.str "y"]])] []) "C" "M"
          [("M1", []), ("M2", [])]).2 "C" "TC").2 =
      [SlackAction.postMessage "C"
        "Here are your original results (all filters cleared):"
        (create_filtered_result_message (Frame.mk [("A", Dtype.obj)]
          [[Cell.str "x"], [Cell.str "y"]]) []
          (Frame.mk [("A", Dtype.obj)] [[Cell.str "x"], [Cell.str "y"]]).nrows) false] ∧
    cacheLookup (handle_clear_all_filters_button_click
        (runFilterChain (BotState.mk [("M", "SELECT 1")] [("M", Frame.mk
          [("A", Dtype.obj)] [[Cell.str "x"], [Cell.str "y"]])] [("M", Frame.mk
          [("A", Dtype.obj)] [[Cell.str "x"], [Cell.str "y"]])] []) "C" "M"
          [("M1", []), ("M2", [])]).1
        (runFilterChain (BotState.mk [("M", "SELECT 1")] [("M", Frame.mk
          [("A", Dtype.obj)] [[Cell.str "x"], [Cell.str "y"]])] [("M", Frame.mk
          [("A", Dtype.obj)] [[Cell.str "x"], [Cell.str "y"]])] []) "C" "M"
          [("M1", []), ("M2", [])]).2 "C" "TC").1.global_original_dataframe_cache "TC" =
      some (Frame.mk [("A", Dtype.obj)] [[Cell.str "x"], [Cell.str "y"]]) ∧
    cacheLookup (handle_clear_all_filters_button_click
        (runFilterChain (BotState.mk [("M", "SELECT 1")] [("M", Frame.mk
          [("A", Dtype.obj)] [[Cell.str "x"], [Cell.str "y"]])] [("M", Frame.mk
          [("A", Dtype.obj)] [[Cell.str "x"], [Cell.str "y"]])] []) "C" "M"
          [("M1", []), ("M2", [])]).1
        (runFilterChain (BotState.mk [("M", "SELECT 1")] [("M", Frame.mk
          [("A", Dtype.obj)] [[Cell.str "x"], [Cell.str "y"]])] [("M", Frame.mk
          [("A", Dtype.obj)] [[Cell.str "x"], [Cell.str "y"]])] []) "C" "M"
          [("M1", []), ("M2", [])]).2 "C" "TC").1.global_dataframe_cache "TC" =
      some (Frame.mk [("A", Dtype.obj)] [[Cell.str "x"], [Cell.str "y"]]) ∧
    cacheLookup (handle_clear_all_filters_button_click
        (runFilterChain (BotState.mk [("M", "SELECT 1")] [("M", Frame.mk
          [("A", Dtype.obj)] [[Cell.str "x"], [Cell.str "y"]])] [("M", Frame.mk
          [("A", Dtype.obj)] [[Cell.str "x"], [Cell.str "y"]])] []) "C" "M"
          [("M1", []), ("M2", [])]).1
        (runFilterChain (BotState.mk [("M", "SELECT 1")] [("M", Frame.mk
          [("A", Dtype.obj)] [[Cell.str "x"], [Cell.str "y"]])] [("M", Frame.mk
          [("A", Dtype.obj)] [[Cell.str "x"], [Cell.str "y"]])] []) "C" "M"
          [("M1", []), ("M2", [])]).2 "C" "TC").1.global_sql_cache "TC" =
      some "SELECT 1" ∧
    cacheLookup (handle_clear_all_filters_button_click
        (runFilterChain (BotState.mk [("M", "SELECT 1")] [("M", Frame.mk
          [("A", Dtype.obj)] [[Cell.str "x"], [Cell.str "y"]])] [("M", Frame.mk
          [("A", Dtype.obj)] [[Cell.str "x"], [Cell.str "y"]])] []) "C" "M"
          [("M1", []), ("M2", [])]).1
        (runFilterChain (BotState.mk [("M", "SELECT 1")] [("M", Frame.mk
          [("A", Dtype.obj)] [[Cell.str "x"], [Cell.str "y"]])] [("M", Frame.mk
          [("A", Dtype.obj)] [[Cell.str "x"], [Cell.str "y"]])] []) "C" "M"
          [("M1", []), ("M2", [])]).2 "C" "TC").1.global_current_filters_cache "TC" =
      some []) :=
  ⟨rfl, rfl, by decide,
   C1_test (BotState.mk [("M", "SELECT 1")] [("M", Frame.mk [("A", Dtype.obj)]
       [[Cell.str "x"], [Cell.str "y"]])] [("M", Frame.mk [("A", Dtype.obj)]
       [[Cell.str "x"], [Cell.str "y"]])] []) "C" "M" "TC"
     (Frame.mk [("A", Dtype.obj)] [[Cell.str "x"], [Cell.str "y"]]) "SELECT 1"
     [("M1", []), ("M2", [])] rfl rfl (by decide)⟩

end CortexSlack
